import Mathlib

/-!
# Canary producer: latency tracker, frame pump and metric passes

A shallow embedding of `canary/producer-cpp/src/Canary.cpp`:

* the key-frame timing map and the two functions that use it,
  `updateFragmentEndTimes` (insert + evict, called for every key frame) and
  `CanaryStreamCallbackProvider::fragmentAckReceivedHandler` (lookup + latency
  metric, called for every fragment acknowledgment);
* the construction of a frame with its 20 bytes of metadata,
  `create_kinesis_video_frame`;
* the metric passes `pushErrorMetrics`, `pushClientMetrics`,
  `pushStreamMetrics` and `pushStartupLatencyMetric`;
* the frame pump `on_new_sample` with `put_frame`, and the callback
  `streamErrorReportHandler`.

Conventions of the embedding

* `uint64_t` / `UINT64` values are natural numbers.  The tracker only divides
  them; where the source adds or subtracts them, or narrows to `UINT32` or
  `int`, the reduction modulo the width is written out.
* A reading of `system_clock::now()` in milliseconds is a signed 64-bit
  integer (`std::chrono::milliseconds::rep`); it is an `Int`.  Where the
  source mixes it with a `uint64_t` operand the usual arithmetic conversions
  turn the signed operand into `uint64_t`; that conversion is `toUInt64`.
* `std::map<uint64_t, uint64_t>` is the list of its entries in ascending key
  order (`Ordered`), which is the order in which its iterators walk it.
* A function whose execution can leave defined behaviour returns
  `Except Undefined _`.
* The number held by a `double` is a `Rat`.  Where the source converts an
  integer to `double` the rounding to 53 significant bits is `toDouble`; a
  quotient of two `double` values is the field `doubleDiv` of `Externals`.
* The calls a function makes on the streaming client, the metrics sink, the
  log sink and the main loop are returned as a list of `Event`, in order.
  What a call of `on_new_sample` reads from outside (the buffer, the clocks,
  the results of the client) is a `SampleEnv`.
* Macros and functions declared in headers that are not among the sources are
  the fields of `Externals`.
-/

namespace Canary

/-! ## Constants and types declared outside the two source files -/

/-- Modelled from the spec: the macro `HUNDREDS_OF_NANOS_IN_A_MILLISECOND` is
declared in a header that is not among the sources.  Timestamps are counted
in units of 100 ns and the conversion to milliseconds is `t / 10000`. -/
def HUNDREDS_OF_NANOS_IN_A_MILLISECOND : Nat := 10000

/-- Modelled from the spec: the macro `STATUS_SUCCESS` is declared in a header
that is not among the sources; it is the zero status code. -/
def STATUS_SUCCESS : Nat := 0

/-- Modelled from the spec: the enumeration `FRAGMENT_ACK_TYPE` is declared in
a header that is not among the sources.  The spec names the classifications
buffering / received / persisted / error; `OTHER` stands for any further
enumerator of the absent declaration. -/
inductive FRAGMENT_ACK_TYPE where
  | BUFFERING
  | RECEIVED
  | PERSISTED
  | ERROR
  | OTHER
  deriving DecidableEq, Repr

/-- The two fields of `FragmentAck` that the handler reads. -/
structure FragmentAck where
  ackType : FRAGMENT_ACK_TYPE
  timestamp : Nat
  deriving DecidableEq, Repr

/-! ## The key-frame timing map -/

/-- The entries of a `std::map<uint64_t, uint64_t>`, in iteration order. -/
abbrev KeyFrameMap := List (Nat × Nat)

/-- The class invariant of `std::map`: keys strictly ascending (hence unique). -/
def Ordered (m : KeyFrameMap) : Prop := m.Pairwise (fun a b => a.1 < b.1)

instance (m : KeyFrameMap) : Decidable (Ordered m) := by
  unfold Ordered
  infer_instance

/-- The call `mapPtr->find(key)`: the mapped value, or `none` for `end()`. -/
def mapFind : KeyFrameMap → Nat → Option Nat
  | [], _ => none
  | (k, v) :: rest, key => if k = key then some v else mapFind rest key

/-- The statement `(*mapPtr)[key] = value`: overwrite the entry of `key`, or
insert a new entry at its place in key order. -/
def mapAssign : KeyFrameMap → Nat → Nat → KeyFrameMap
  | [], key, value => [(key, value)]
  | (k, v) :: rest, key, value =>
    if key < k then (key, value) :: (k, v) :: rest
    else if key = k then (key, value) :: rest
    else (k, v) :: mapAssign rest key value

/-- Conversion of a signed 64-bit integer to `uint64_t`. -/
def toUInt64 (x : Int) : Nat := (x % (2 : Int) ^ 64).toNat

/-- The test of line 260,
`iter->first < (duration_cast<milliseconds>(now).count() - (300000))`:
the left operand is `uint64_t`, the right one is signed, so the comparison is
done on `uint64_t`. -/
def isStale (nowMs : Int) (key : Nat) : Bool :=
  decide (key < toUInt64 (nowMs - 300000))

/-- The `while` loop of lines 257-266.  The clock is read anew in every
iteration: `clock j` is the `j`-th reading made during the call, and `i` is
the number of readings made so far.  An iteration erases the first entry when
it is stale and leaves the loop otherwise; the loop also ends at `end()`. -/
def evictLoop (clock : Nat → Int) : Nat → KeyFrameMap → KeyFrameMap
  | _, [] => []
  | i, (k, v) :: rest =>
    if isStale (clock i) k then evictLoop clock (i + 1) rest
    else (k, v) :: rest

/-- The function `updateFragmentEndTimes` (lines 252-269).  The reference
parameter `lastKeyFrameTime` and the map behind `mapPtr` are passed in and
their new values are returned, in this order. -/
def updateFragmentEndTimes (clock : Nat → Int) (curKeyFrameTime : Nat)
    (lastKeyFrameTime : Nat) (m : KeyFrameMap) : Nat × KeyFrameMap :=
  if lastKeyFrameTime ≠ 0 then
    (curKeyFrameTime,
      evictLoop clock 0
        (mapAssign m (lastKeyFrameTime / HUNDREDS_OF_NANOS_IN_A_MILLISECOND)
          (curKeyFrameTime / HUNDREDS_OF_NANOS_IN_A_MILLISECOND)))
  else
    (curKeyFrameTime, m)

/-- A run of `updateFragmentEndTimes` calls on the tracker state
`(lastKeyFrameTime, map)`: each call comes with the clock readings made
during it and the key-frame timestamp it is given. -/
def observeKeyFrames (calls : List ((Nat → Int) × Nat)) (s : Nat × KeyFrameMap) :
    Nat × KeyFrameMap :=
  calls.foldl (fun st c => updateFragmentEndTimes c.1 c.2 st.1 st.2) s

/-! ## Metric requests -/

/-- The two dimension objects of `CustomData`: `pDimensionPerStream` and
`pAggregatedDimension`. -/
inductive Dimension where
  | perStream
  | aggregated
  deriving DecidableEq, Repr

/-- The values of `Aws::CloudWatch::Model::StandardUnit` that the canary uses. -/
inductive StandardUnit where
  | Milliseconds
  | Count
  | Count_Second
  | Kilobits_Second
  | Kilobytes
  deriving DecidableEq, Repr

/-- The fields of `Aws::CloudWatch::Model::MetricDatum` that `pushMetric`
sets.  `value` is the number held by the `double`. -/
structure MetricDatum where
  metricName : String := ""
  dimensions : List Dimension := []
  value : Rat := 0
  unit : Option StandardUnit := none
  deriving DecidableEq, Repr

/-- The fields of `Aws::CloudWatch::Model::PutMetricDataRequest` in use. -/
structure PutMetricDataRequest where
  nameSpace : String := ""
  metricData : List MetricDatum := []
  deriving DecidableEq, Repr

/-- The conversion of a `UINT64` to `double`, for the binary64 format with
rounding to nearest, ties to even: `dropped` is the number of bits by which
the argument exceeds 53 bits; the argument is rounded to a multiple of
`2 ^ dropped`, to the nearest one and, half-way between two, to the even one.
An argument of at most 53 bits is kept.  The result is the number that the
`double` holds. -/
def toDouble (n : Nat) : Nat :=
  let dropped := ((List.range 11).filter (fun k => 2 ^ (53 + k) ≤ n)).length
  let q := n / 2 ^ dropped
  let r := n % 2 ^ dropped
  if 2 * r > 2 ^ dropped ∨ (2 * r = 2 ^ dropped ∧ q % 2 = 1) then (q + 1) * 2 ^ dropped
  else q * 2 ^ dropped

/-- The conversion of a signed 64-bit integer to `double`. -/
def toDoubleInt (x : Int) : Int :=
  if x < 0 then -((toDouble (-x).toNat : Nat) : Int) else ((toDouble x.toNat : Nat) : Int)

/-- The function `pushMetric` (lines 90-100).  `datum` is passed by value, so
the caller's datum is not changed; the request is passed by reference and its
new value is returned. -/
def pushMetric (metricName : String) (metricValue : Rat) (unit : StandardUnit)
    (datum : MetricDatum) (dimension : Dimension) (cwRequest : PutMetricDataRequest) :
    PutMetricDataRequest :=
  let datum1 := { datum with metricName := metricName }
  let datum2 := { datum1 with dimensions := datum1.dimensions ++ [dimension] }
  let datum3 := { datum2 with value := metricValue }
  let datum4 := { datum3 with unit := some unit }
  { cwRequest with metricData := cwRequest.metricData ++ [datum4] }

/-! ## The acknowledgment handler -/

/-- Modelled from the spec: the constant `GST_CLOCK_TIME_NONE` of the capture
library, the value that marks an invalid timestamp; it is the largest
`uint64_t`. -/
def GST_CLOCK_TIME_NONE : Nat := 2 ^ 64 - 1

/-- Modelled from the spec: the structure `CustomData` is declared in a header
that is not among the sources.  These are the fields that the embedded
functions use, with those of the `CanaryConfig` behind `pCanaryConfig`
(`useAggMetrics`, `canaryRunScenario`, `canaryDuration`).  `mainLoop` says
whether the pointer of that name is not `NULL`.  `startTime` and
`producerStartTime` are taken as unsigned 64-bit counts of nanoseconds: lines
829 and 468 assign them the `count()` of a `nanoseconds` duration.  The
default values only serve to write examples. -/
structure CustomData where
  timeOfNextKeyFrame : KeyFrameMap := []
  lastKeyFrameTime : Nat := 0
  useAggMetrics : Bool := true
  streamStatus : Nat := STATUS_SUCCESS
  streamStarted : Bool := false
  syntheticDts : Nat := 0
  useAbsoluteFragmentTimes : Bool := true
  firstPts : Nat := GST_CLOCK_TIME_NONE
  producerStartTime : Nat := 0
  onFirstFrame : Bool := true
  canaryRunScenario : String := "Continuous"
  canaryDuration : Nat := 0
  runTill : Int := 0
  sleepTimeStamp : Int := 0
  timeCounter : Int := 0
  totalPutFrameErrorCount : Nat := 0
  totalErrorAckCount : Nat := 0
  startTime : Nat := 0
  mainLoop : Bool := true
  deriving DecidableEq, Repr

/-- Executions whose behaviour the language leaves undefined. -/
inductive Undefined where
  /-- The member access `->second` on the `end()` iterator that `find` returned. -/
  | derefEnd
  /-- A `MEMCPY` that writes past the end of the array allocated for the frame. -/
  | heapOverflow
  /-- Control reaches the closing brace of a function that returns a value,
  without a `return` statement, after the requests `sent` were handed to
  `PutMetricDataAsync`. -/
  | noReturn (sent : List PutMetricDataRequest)
  deriving DecidableEq, Repr

/-- What a call of the handler that returns leaves behind: the status it
returned (`status` is `some` of it), the requests handed to
`PutMetricDataAsync`, in order, and the `CustomData` after the call. -/
structure HandlerResult where
  status : Option Nat
  sent : List PutMetricDataRequest
  data : CustomData
  deriving DecidableEq, Repr

/-- Lines 171-219 of `fragmentAckReceivedHandler`: the requests handed to
`PutMetricDataAsync`, in order, when line 169 has read the value
`timeOfFragmentEndSent`.  `now` is the clock reading of line 181 or 199, in
milliseconds.  In `currentTimestamp - timeOfFragmentEndSent` the left operand
is signed and the right one is `uint64_t`, so the difference is a `uint64_t`;
it is converted to the `double` parameter of `pushMetric`. -/
def ackLatencyRequests (now : Int) (data : CustomData) (pFragmentAck : FragmentAck)
    (timeOfFragmentEndSent : Nat) : List PutMetricDataRequest :=
  if timeOfFragmentEndSent > pFragmentAck.timestamp then
    match pFragmentAck.ackType with
    | FRAGMENT_ACK_TYPE.PERSISTED =>
      let persistedAckLatencyDatum : MetricDatum := {}
      let cwRequest : PutMetricDataRequest := { nameSpace := "KinesisVideoSDKCanary" }
      let persistedAckLatency : Nat := toUInt64 (now - (timeOfFragmentEndSent : Int))
      let cwRequest1 := pushMetric "PersistedAckLatency" ((toDouble persistedAckLatency : Nat) : Rat)
        StandardUnit.Milliseconds persistedAckLatencyDatum Dimension.perStream cwRequest
      let cwRequest2 :=
        if data.useAggMetrics then
          pushMetric "PersistedAckLatency" ((toDouble persistedAckLatency : Nat) : Rat)
            StandardUnit.Milliseconds persistedAckLatencyDatum Dimension.aggregated cwRequest1
        else cwRequest1
      [cwRequest2]
    | FRAGMENT_ACK_TYPE.RECEIVED =>
      let receivedAckLatencyDatum : MetricDatum := {}
      let cwRequest : PutMetricDataRequest := { nameSpace := "KinesisVideoSDKCanary" }
      let receivedAckLatency : Nat := toUInt64 (now - (timeOfFragmentEndSent : Int))
      let cwRequest1 := pushMetric "ReceivedAckLatency" ((toDouble receivedAckLatency : Nat) : Rat)
        StandardUnit.Milliseconds receivedAckLatencyDatum Dimension.perStream cwRequest
      let cwRequest2 :=
        if data.useAggMetrics then
          pushMetric "ReceivedAckLatency" ((toDouble receivedAckLatency : Nat) : Rat)
            StandardUnit.Milliseconds receivedAckLatencyDatum Dimension.aggregated cwRequest1
        else cwRequest1
      [cwRequest2]
    | _ => []
  else []

/-- The function `CanaryStreamCallbackProvider::fragmentAckReceivedHandler`
(lines 157-222).  `now` is the clock reading of line 181 or 199, in
milliseconds.  The only `return` statement is that of line 163: every call
that passes line 164 and whose timestamp is a key reaches the closing brace of
line 222 without one, in a function that returns `STATUS`. -/
def fragmentAckReceivedHandler (now : Int) (data : CustomData) (pFragmentAck : FragmentAck) :
    Except Undefined HandlerResult :=
  if pFragmentAck.ackType ≠ FRAGMENT_ACK_TYPE.PERSISTED ∧
      pFragmentAck.ackType ≠ FRAGMENT_ACK_TYPE.RECEIVED then
    .ok { status := some STATUS_SUCCESS, sent := [], data := data }
  else
    match mapFind data.timeOfNextKeyFrame pFragmentAck.timestamp with
    | none => .error Undefined.derefEnd
    | some timeOfFragmentEndSent =>
      .error (Undefined.noReturn
        (ackLatencyRequests now data pFragmentAck timeOfFragmentEndSent))

/-- All samples of a list of requests. -/
def samples (sent : List PutMetricDataRequest) : List MetricDatum :=
  (sent.map (fun q => q.metricData)).flatten

/-! ## Frames -/

/-- Modelled from the spec: the macro `DEFAULT_TIME_UNIT_IN_NANOS` is declared
in a header that is not among the sources.  Frame timestamps are counted in
units of 100 ns, so a nanosecond count is divided by 100. -/
def DEFAULT_TIME_UNIT_IN_NANOS : Nat := 100

/-- Modelled from the spec: the macro `CANARY_METADATA_SIZE` is declared in a
header that is not among the sources.  The metadata header has 20 bytes. -/
def CANARY_METADATA_SIZE : Nat := 20

/-- Modelled from the spec: the macro `STATUS_FAILED` is declared in a header
that is not among the sources.  A status has failed when it is not the
success status. -/
def STATUS_FAILED (status : Nat) : Bool := status != STATUS_SUCCESS

/-- Modelled from the spec: the type `FRAME_FLAGS` is declared in a header that
is not among the sources.  The pump passes one of two values, for a delta
frame and for a key frame. -/
inductive FRAME_FLAGS where
  | FRAME_FLAG_NONE
  | FRAME_FLAG_KEY_FRAME
  deriving DecidableEq, Repr

/-- Modelled from the spec: the macro `CHECK_FRAME_FLAG_KEY_FRAME` is declared
in a header that is not among the sources; it tests the key-frame flag. -/
def CHECK_FRAME_FLAG_KEY_FRAME (flags : FRAME_FLAGS) : Bool :=
  flags == FRAME_FLAGS.FRAME_FLAG_KEY_FRAME

/-- What the two source files use of declarations that are not among the
sources and whose content the spec does not give: the two error
classifications, the checksum, the per-frame duration, the track id, and the
quotient that the division of two `double` values returns. -/
structure Externals where
  IS_RETRIABLE_ERROR : Nat → Bool
  IS_RECOVERABLE_ERROR : Nat → Bool
  COMPUTE_CRC32 : List Nat → Nat
  DEFAULT_FRAME_DURATION_MS : Nat
  DEFAULT_TRACK_ID : Nat
  doubleDiv : Rat → Rat → Rat

/-- An instance of `Externals` to evaluate the functions at concrete inputs. -/
def exampleExternals : Externals where
  IS_RETRIABLE_ERROR := fun _ => false
  IS_RECOVERABLE_ERROR := fun _ => false
  COMPUTE_CRC32 := fun _ => 0
  DEFAULT_FRAME_DURATION_MS := 2
  DEFAULT_TRACK_ID := 1
  doubleDiv := fun a b => a / b

/-- The fields of `Frame` that `create_kinesis_video_frame` reads or sets.
`frameData` lists the bytes of the array behind the pointer of that name. -/
structure Frame where
  flags : FRAME_FLAGS := FRAME_FLAGS.FRAME_FLAG_NONE
  decodingTs : Nat := 0
  presentationTs : Nat := 0
  duration : Nat := 0
  size : Nat := 0
  frameData : List Nat := []
  index : Nat := 0
  trackId : Nat := 0
  deriving DecidableEq, Repr

/-- Conversion of a `uint64_t` to a signed 64-bit integer. -/
def toInt64 (x : Nat) : Int := ((x : Int) + (2 : Int) ^ 63) % (2 : Int) ^ 64 - (2 : Int) ^ 63

/-- Conversion of a signed 64-bit integer to `int`. -/
def toInt32 (x : Int) : Int := (x + (2 : Int) ^ 31) % (2 : Int) ^ 32 - (2 : Int) ^ 31

/-- The `n` bytes of `value`, most significant byte first. -/
def bigEndian (n value : Nat) : List Nat :=
  (List.range n).map (fun i => value / 256 ^ (n - 1 - i) % 256)

/-- Modelled from the spec: `putUnalignedInt64BigEndian` is declared in a
header that is not among the sources; it stores the 8 bytes of its argument,
most significant byte first. -/
def putUnalignedInt64BigEndian (value : Nat) : List Nat := bigEndian 8 (value % 2 ^ 64)

/-- Modelled from the spec: `putUnalignedInt32BigEndian` is declared in a
header that is not among the sources; it stores the 4 bytes of its argument,
most significant byte first. -/
def putUnalignedInt32BigEndian (value : Nat) : List Nat := bigEndian 4 (value % 2 ^ 32)

/-- The number that a sequence of bytes denotes when it is read most
significant byte first. -/
def readBigEndian (bytes : List Nat) : Nat := bytes.foldl (fun acc b => acc * 256 + b) 0

/-- A store of `bytes` at offset `off` of an array that is long enough. -/
def writeAt (buf : List Nat) (off : Nat) (bytes : List Nat) : List Nat :=
  buf.take off ++ bytes ++ buf.drop (off + bytes.length)

/-- The function `create_kinesis_video_frame` (lines 231-250).  `frame` is the
frame as the caller declared it; `uninit i` is the byte at offset `i` of the
array that `new BYTE[frame->size]` returns; `pts` and `dts` are the two
nanosecond counts; `data` are the bytes behind the pointer of that name.  The
size is computed in `UINT32`.  The checksum of line 248 is taken over the
whole array before its own four bytes are stored. -/
def create_kinesis_video_frame (X : Externals) (frame : Frame) (uninit : Nat → Nat)
    (pts dts : Int) (flags : FRAME_FLAGS) (data : List Nat) (len : Nat) :
    Except Undefined Frame :=
  let decodingTs := toUInt64 dts / DEFAULT_TIME_UNIT_IN_NANOS
  let presentationTs := toUInt64 pts / DEFAULT_TIME_UNIT_IN_NANOS
  let size := (len % 2 ^ 32 + CANARY_METADATA_SIZE) % 2 ^ 32
  let frameData0 := (List.range size).map uninit
  if size < CANARY_METADATA_SIZE + len then
    Except.error Undefined.heapOverflow
  else
    let frameData1 := writeAt frameData0 CANARY_METADATA_SIZE (data.take len)
    let frameData2 := writeAt frameData1 0
      (putUnalignedInt64BigEndian (presentationTs / HUNDREDS_OF_NANOS_IN_A_MILLISECOND))
    let frameData3 := writeAt frameData2 8 (putUnalignedInt32BigEndian frame.index)
    let frameData4 := writeAt frameData3 12 (putUnalignedInt32BigEndian size)
    let frameData5 := writeAt frameData4 16
      (putUnalignedInt32BigEndian (X.COMPUTE_CRC32 (frameData4.take size)))
    Except.ok
      { frame with
        flags := flags
        decodingTs := decodingTs
        presentationTs := presentationTs
        duration := 0
        size := size
        frameData := frameData5
        trackId := X.DEFAULT_TRACK_ID }

/-! ## The metric passes -/

/-- The values that `getMetrics()` of the stream returns: the current frame
rate (a `double`), the current transfer rate, the current view duration, and
the two raw counters behind `getRawMetrics()`. -/
structure StreamMetrics where
  currentElementaryFrameRate : Rat := 0
  currentTransferRate : Nat := 0
  currentViewDuration : Int := 0
  putFrameErrors : Nat := 0
  errorAcks : Nat := 0
  deriving DecidableEq, Repr

/-- The value that `getMetrics()` of the producer returns, as far as it is used. -/
structure ClientMetrics where
  contentStoreSizeSize : Nat := 0
  deriving DecidableEq, Repr

/-- The difference `a - b` of two `UINT64` values. -/
def subUInt64 (a b : Nat) : Nat := toUInt64 ((a : Int) - (b : Int))

/-- The function `pushErrorMetrics` (lines 271-304).  The two differences are
taken in `UINT64` and converted to `double`, the two rates are quotients of
`double` values, and the sum is taken in `UINT64` and converted to the
`double` parameter of `pushMetric`.  The new `CustomData` and the request
handed to `PutMetricDataAsync` are returned. -/
def pushErrorMetrics (X : Externals) (cusData : CustomData) (rawStreamMetrics : StreamMetrics)
    (duration : Rat) : CustomData × PutMetricDataRequest :=
  let metricDatum : MetricDatum := {}
  let cwRequest : PutMetricDataRequest := { nameSpace := "KinesisVideoSDKCanary" }
  let newPutFrameErrors : Nat :=
    subUInt64 rawStreamMetrics.putFrameErrors cusData.totalPutFrameErrorCount
  let cusData1 := { cusData with totalPutFrameErrorCount := rawStreamMetrics.putFrameErrors }
  let putFrameErrorRate : Rat :=
    X.doubleDiv ((toDouble newPutFrameErrors : Nat) : Rat) duration
  let cwRequest1 := pushMetric "PutFrameErrorRate" putFrameErrorRate StandardUnit.Count_Second
    metricDatum Dimension.perStream cwRequest
  let newErrorAcks : Nat := subUInt64 rawStreamMetrics.errorAcks cusData1.totalErrorAckCount
  let cusData2 := { cusData1 with totalErrorAckCount := rawStreamMetrics.errorAcks }
  let errorAckRate : Rat := X.doubleDiv ((toDouble newErrorAcks : Nat) : Rat) duration
  let cwRequest2 := pushMetric "ErrorAckRate" errorAckRate StandardUnit.Count_Second
    metricDatum Dimension.perStream cwRequest1
  let totalNumberOfErrors : Nat :=
    (cusData2.totalPutFrameErrorCount + cusData2.totalErrorAckCount) % 2 ^ 64
  let cwRequest3 := pushMetric "TotalNumberOfErrors"
    ((toDouble totalNumberOfErrors : Nat) : Rat)
    StandardUnit.Count metricDatum Dimension.perStream cwRequest2
  let cwRequest4 :=
    if cusData2.useAggMetrics then
      pushMetric "TotalNumberOfErrors" ((toDouble totalNumberOfErrors : Nat) : Rat)
        StandardUnit.Count metricDatum Dimension.aggregated
        (pushMetric "ErrorAckRate" errorAckRate StandardUnit.Count_Second
          metricDatum Dimension.aggregated
          (pushMetric "PutFrameErrorRate" putFrameErrorRate StandardUnit.Count_Second
            metricDatum Dimension.aggregated cwRequest3))
    else cwRequest3
  (cusData2, cwRequest4)

/-- The function `pushClientMetrics` (lines 306-327); the division by 1000 is
an integer division, whose quotient is converted to `double`. -/
def pushClientMetrics (cusData : CustomData) (clientMetrics : ClientMetrics) :
    PutMetricDataRequest :=
  let metricDatum : MetricDatum := {}
  let cwRequest : PutMetricDataRequest := { nameSpace := "KinesisVideoSDKCanary" }
  let availableStoreSize : Rat :=
    ((toDouble (clientMetrics.contentStoreSizeSize / 1000) : Nat) : Rat)
  let cwRequest1 := pushMetric "ContentStoreAvailableSize" availableStoreSize
    StandardUnit.Kilobytes metricDatum Dimension.perStream cwRequest
  if cusData.useAggMetrics then
    pushMetric "ContentStoreAvailableSize" availableStoreSize StandardUnit.Kilobytes
      metricDatum Dimension.aggregated cwRequest1
  else cwRequest1

/-- The function `pushStreamMetrics` (lines 329-363); the transfer rate is
converted with integer arithmetic in `UINT64`; it and the view duration are
then converted to `double`. -/
def pushStreamMetrics (cusData : CustomData) (streamMetrics : StreamMetrics) :
    PutMetricDataRequest :=
  let metricDatum : MetricDatum := {}
  let cwRequest : PutMetricDataRequest := { nameSpace := "KinesisVideoSDKCanary" }
  let frameRate : Rat := streamMetrics.currentElementaryFrameRate
  let cwRequest1 := pushMetric "FrameRate" frameRate StandardUnit.Count_Second
    metricDatum Dimension.perStream cwRequest
  let transferRate : Rat :=
    ((toDouble (8 * streamMetrics.currentTransferRate % 2 ^ 64 / 1024) : Nat) : Rat)
  let cwRequest2 := pushMetric "TransferRate" transferRate StandardUnit.Kilobits_Second
    metricDatum Dimension.perStream cwRequest1
  let currentViewDuration : Rat :=
    ((toDoubleInt streamMetrics.currentViewDuration : Int) : Rat)
  let cwRequest3 := pushMetric "CurrentViewDuration" currentViewDuration
    StandardUnit.Milliseconds metricDatum Dimension.perStream cwRequest2
  if cusData.useAggMetrics then
    pushMetric "CurrentViewDuration" currentViewDuration StandardUnit.Milliseconds
      metricDatum Dimension.aggregated
      (pushMetric "TransferRate" transferRate StandardUnit.Kilobits_Second
        metricDatum Dimension.aggregated
        (pushMetric "FrameRate" frameRate StandardUnit.Count_Second
          metricDatum Dimension.aggregated cwRequest3))
  else cwRequest3

/-- The function `pushStartupLatencyMetric` (lines 365-383).  `now` is the
clock reading of line 367 in milliseconds; `data->startTime / 1000000` is an
integer division.  The reading and the quotient are held in `double`; for a
clock that counts nanoseconds in 64 bits both are below `2 ^ 53`, where the
two conversions and the subtraction are exact, so no rounding is written. -/
def pushStartupLatencyMetric (data : CustomData) (now : Int) : PutMetricDataRequest :=
  let currentTimestamp : Rat := (now : Rat)
  let startUpLatency : Rat := currentTimestamp - ((data.startTime / 1000000 : Nat) : Rat)
  let startupLatencyDatum : MetricDatum := {}
  let cwRequest : PutMetricDataRequest := { nameSpace := "KinesisVideoSDKCanary" }
  let cwRequest1 := pushMetric "StartupLatency" startUpLatency StandardUnit.Milliseconds
    startupLatencyDatum Dimension.perStream cwRequest
  if data.useAggMetrics then
    pushMetric "StartupLatency" startUpLatency StandardUnit.Milliseconds
      startupLatencyDatum Dimension.aggregated cwRequest1
  else cwRequest1

/-! ## The frame pump -/

/-- The calls by which the pump and the callbacks act on the streaming client,
the metrics sink, the log sink and the main loop. -/
inductive Event where
  /-- The call `kinesisVideoStream->start(cpd)`. -/
  | start
  /-- The call `kinesisVideoStream->putEventMetadata(...)`. -/
  | putEventMetadata
  /-- The call `kinesisVideoStream->putFrame(frame)`. -/
  | putFrame (frame : Frame)
  /-- The call `pCWclient->PutMetricDataAsync(cwRequest, ...)`. -/
  | putMetricData (cwRequest : PutMetricDataRequest)
  /-- The call `pCanaryLogs->canaryStreamSendLogs(...)`. -/
  | sendLogs
  /-- The call `g_main_loop_quit(data->mainLoop)`. -/
  | mainLoopQuit
  /-- The call `sleep(seconds)`. -/
  | sleep (seconds : Nat)
  deriving DecidableEq, Repr

/-- The two values of `GstFlowReturn` that `on_new_sample` returns. -/
inductive GstFlowReturn where
  | GST_FLOW_OK
  | GST_FLOW_ERROR
  deriving DecidableEq, Repr

/-- Values of the buffer flags of the capture library. -/
def GST_BUFFER_FLAG_DECODE_ONLY : Nat := 2 ^ 5

/-- The discontinuity flag of the capture library. -/
def GST_BUFFER_FLAG_DISCONT : Nat := 2 ^ 6

/-- The corrupted flag of the capture library. -/
def GST_BUFFER_FLAG_CORRUPTED : Nat := 2 ^ 8

/-- The header flag of the capture library. -/
def GST_BUFFER_FLAG_HEADER : Nat := 2 ^ 10

/-- The delta-unit flag of the capture library. -/
def GST_BUFFER_FLAG_DELTA_UNIT : Nat := 2 ^ 13

/-- The macro `GST_BUFFER_FLAG_IS_SET` of the capture library, on the flag
word of a buffer. -/
def GST_BUFFER_FLAG_IS_SET (flags flag : Nat) : Bool := (flags &&& flag) == flag

/-- What `on_new_sample` reads of the buffer of the pulled sample: the flag
word, the two timestamps, the payload, and whether `gst_buffer_map` succeeds. -/
structure GstBuffer where
  flags : Nat := 0
  pts : Nat := 0
  dts : Nat := 0
  payload : List Nat := []
  mappable : Bool := true
  deriving DecidableEq, Repr

/-- The macro `GST_BUFFER_PTS_IS_VALID` of the capture library. -/
def GST_BUFFER_PTS_IS_VALID (buffer : GstBuffer) : Bool := buffer.pts != GST_CLOCK_TIME_NONE

/-- The macro `GST_BUFFER_DTS_IS_VALID` of the capture library. -/
def GST_BUFFER_DTS_IS_VALID (buffer : GstBuffer) : Bool := buffer.dts != GST_CLOCK_TIME_NONE

/-- Everything one call of `on_new_sample` takes from outside `CustomData`:
the buffer of the pulled sample, the content of the local `frame` of
`put_frame` and of the array allocated for it, the result of `putFrame`, the
metrics of the stream and of the producer, the two results of `rand()`, and
the clock readings, one for each place that reads the clock (`keyFrameClock`
for the loop of `updateFragmentEndTimes`). -/
structure SampleEnv where
  buffer : GstBuffer := {}
  frame : Frame := {}
  uninit : Nat → Nat := fun _ => 0
  putFrameResult : Bool := true
  streamMetrics : StreamMetrics := {}
  clientMetrics : ClientMetrics := {}
  rand1 : Nat := 0
  rand2 : Nat := 0
  keyFrameClock : Nat → Int := fun _ => 0
  nowSecondsErrorPass : Int := 0
  nowSecondsTimeCounter : Int := 0
  nowMsStartup : Int := 0
  nowNsProducerStart : Int := 0
  nowSecondsStop : Int := 0
  nowMinutesPause : Int := 0
  nowMsSleep : Int := 0
  nowMinutesRunTill : Int := 0

/-- The value of `isDroppable` (lines 443-449). -/
def isDroppable (buffer : GstBuffer) : Bool :=
  let isHeader := GST_BUFFER_FLAG_IS_SET buffer.flags GST_BUFFER_FLAG_HEADER
  GST_BUFFER_FLAG_IS_SET buffer.flags GST_BUFFER_FLAG_CORRUPTED ||
  GST_BUFFER_FLAG_IS_SET buffer.flags GST_BUFFER_FLAG_DECODE_ONLY ||
  (buffer.flags == GST_BUFFER_FLAG_DISCONT) ||
  (GST_BUFFER_FLAG_IS_SET buffer.flags GST_BUFFER_FLAG_DISCONT &&
    GST_BUFFER_FLAG_IS_SET buffer.flags GST_BUFFER_FLAG_DELTA_UNIT) ||
  (isHeader && (!GST_BUFFER_PTS_IS_VALID buffer || !GST_BUFFER_DTS_IS_VALID buffer))

/-- Lines 389-409 of `put_frame`, which follow the construction of the frame:
the result of `putFrame`, the new `CustomData` and the calls made, in order. -/
def putFrameAndMetrics (X : Externals) (env : SampleEnv) (cusData : CustomData)
    (frame : Frame) (flags : FRAME_FLAGS) : Bool × CustomData × List Event :=
  let ret := env.putFrameResult
  if CHECK_FRAME_FLAG_KEY_FRAME flags then
    let tracker := updateFragmentEndTimes env.keyFrameClock frame.presentationTs
      cusData.lastKeyFrameTime cusData.timeOfNextKeyFrame
    let cusData1 :=
      { cusData with lastKeyFrameTime := tracker.1, timeOfNextKeyFrame := tracker.2 }
    let streamRequest := pushStreamMetrics cusData1 env.streamMetrics
    let clientRequest := pushClientMetrics cusData1 env.clientMetrics
    let duration : Rat := ((env.nowSecondsErrorPass - cusData1.timeCounter : Int) : Rat)
    if duration > 60 then
      let errorPass := pushErrorMetrics X cusData1 env.streamMetrics duration
      let cusData2 := { errorPass.1 with timeCounter := env.nowSecondsTimeCounter }
      (ret, cusData2,
        [Event.putFrame frame, Event.putMetricData streamRequest,
          Event.putMetricData clientRequest, Event.putMetricData errorPass.2,
          Event.sendLogs])
    else
      (ret, cusData1,
        [Event.putFrame frame, Event.putMetricData streamRequest,
          Event.putMetricData clientRequest])
  else
    (ret, cusData, [Event.putFrame frame])

/-- The function `put_frame` (lines 385-410): the result of `putFrame`, the new
`CustomData` and the calls made, in order. -/
def put_frame (X : Externals) (env : SampleEnv) (cusData : CustomData) (data : List Nat)
    (len : Nat) (pts dts : Int) (flags : FRAME_FLAGS) :
    Except Undefined (Bool × CustomData × List Event) :=
  match create_kinesis_video_frame X env.frame env.uninit pts dts flags data len with
  | Except.error u => Except.error u
  | Except.ok frame => Except.ok (putFrameAndMetrics X env cusData frame flags)

/-- Lines 492-513 of `on_new_sample`: the stop-time check and the pause of the
intermittent scenario.  `currTime` is an `int`; it is compared with a
`uint64_t` sum, so it is converted to `uint64_t`. -/
def stopAndPause (env : SampleEnv) (data : CustomData) (events : List Event) :
    GstFlowReturn × CustomData × List Event :=
  let currTime : Int := toInt32 env.nowSecondsStop
  let events1 :=
    if toUInt64 currTime > data.producerStartTime / 1000000000 + data.canaryDuration then
      events ++ [Event.mainLoopQuit]
    else events
  if data.canaryRunScenario = "Intermittent" ∧ env.nowMinutesPause > data.runTill then
    let data1 := { data with timeOfNextKeyFrame := [] }
    let sleepTime := env.rand1 % 10 + 1
    let data2 := { data1 with sleepTimeStamp := env.nowMsSleep }
    let runTime := env.rand2 % 10 + 1
    let data3 := { data2 with runTill := env.nowMinutesRunTill + (runTime : Int) }
    (GstFlowReturn.GST_FLOW_OK, data3, events1 ++ [Event.sleep (sleepTime * 60)])
  else
    (GstFlowReturn.GST_FLOW_OK, data, events1)

/-- Lines 458-472 of `on_new_sample`: the decode timestamp, synthesized when
the buffer has none, and the presentation timestamp, shifted in the absolute
mode.  The new `CustomData`, `buffer->pts` and `buffer->dts` are returned. -/
def frameTimes (X : Externals) (env : SampleEnv) (data : CustomData) : CustomData × Nat × Nat :=
  let buffer := env.buffer
  let dts : Nat :=
    if GST_BUFFER_DTS_IS_VALID buffer then buffer.dts
    else (data.syntheticDts + X.DEFAULT_FRAME_DURATION_MS *
      HUNDREDS_OF_NANOS_IN_A_MILLISECOND * DEFAULT_TIME_UNIT_IN_NANOS) % 2 ^ 64
  let data1 := { data with syntheticDts := dts }
  let data2 :=
    if data1.useAbsoluteFragmentTimes ∧ data1.firstPts = GST_CLOCK_TIME_NONE then
      { data1 with
        producerStartTime := toUInt64 env.nowNsProducerStart
        firstPts := buffer.pts }
    else data1
  let pts : Nat :=
    if data2.useAbsoluteFragmentTimes then
      (buffer.pts + toUInt64 ((data2.producerStartTime : Int) - (data2.firstPts : Int)))
        % 2 ^ 64
    else buffer.pts
  (data2, pts, dts)

/-- Lines 484-489 of `on_new_sample`: the startup latency is pushed after the
first frame that `putFrame` accepted. -/
def firstFrameMetric (env : SampleEnv) (putFrameSuccess : Bool) (data : CustomData)
    (events : List Event) : CustomData × List Event :=
  if data.onFirstFrame ∧ putFrameSuccess = true then
    ({ data with onFirstFrame := false },
      events ++ [Event.putMetricData (pushStartupLatencyMetric data env.nowMsStartup)])
  else (data, events)

/-- The function `on_new_sample` (lines 412-526): the value returned, the new
`CustomData` and the calls made, in order.  The exit of line 426 and the exit
of line 475 skip the stop-time check and the pause.  The block after `CleanUp`
(lines 515-525), which unmaps the buffer and releases the sample, is not part
of the embedding; on the exit of line 426 it reads `info.data`, which is
assigned only at line 428. -/
def on_new_sample (X : Externals) (env : SampleEnv) (data : CustomData) :
    Except Undefined (GstFlowReturn × CustomData × List Event) :=
  if STATUS_FAILED data.streamStatus then
    Except.ok (GstFlowReturn.GST_FLOW_ERROR, data, [])
  else
    let events0 : List Event := if data.streamStarted then [] else [Event.start]
    let data0 := { data with streamStarted := true }
    if isDroppable env.buffer then
      Except.ok (stopAndPause env data0 events0)
    else
      let delta := GST_BUFFER_FLAG_IS_SET env.buffer.flags GST_BUFFER_FLAG_DELTA_UNIT
      let kinesis_video_flags :=
        if delta then FRAME_FLAGS.FRAME_FLAG_NONE else FRAME_FLAGS.FRAME_FLAG_KEY_FRAME
      let times := frameTimes X env data0
      if env.buffer.mappable then
        let events1 :=
          if CHECK_FRAME_FLAG_KEY_FRAME kinesis_video_flags then
            events0 ++ [Event.putEventMetadata]
          else events0
        match put_frame X env times.1 env.buffer.payload env.buffer.payload.length
            (toInt64 times.2.1) (toInt64 times.2.2) kinesis_video_flags with
        | Except.error u => Except.error u
        | Except.ok sent =>
          let first := firstFrameMetric env sent.1 sent.2.1 (events1 ++ sent.2.2)
          Except.ok (stopAndPause env first.1 first.2)
      else
        Except.ok (GstFlowReturn.GST_FLOW_OK, times.1, events0)

/-- The value of `kinesis_video_flags` (lines 454-456). -/
def kinesisVideoFlags (buffer : GstBuffer) : FRAME_FLAGS :=
  if GST_BUFFER_FLAG_IS_SET buffer.flags GST_BUFFER_FLAG_DELTA_UNIT then
    FRAME_FLAGS.FRAME_FLAG_NONE
  else FRAME_FLAGS.FRAME_FLAG_KEY_FRAME

/-- What a call of `on_new_sample` does with a frame that is not dropped and
whose buffer is mapped, once `create_kinesis_video_frame` has built `frame`
(lines 477-513); `data0` is the `CustomData` after line 440. -/
def afterFrameBuilt (X : Externals) (env : SampleEnv) (data0 : CustomData)
    (events0 : List Event) (frame : Frame) : GstFlowReturn × CustomData × List Event :=
  let times := frameTimes X env data0
  let events1 :=
    if CHECK_FRAME_FLAG_KEY_FRAME (kinesisVideoFlags env.buffer) then
      events0 ++ [Event.putEventMetadata]
    else events0
  let sent := putFrameAndMetrics X env times.1 frame (kinesisVideoFlags env.buffer)
  let first := firstFrameMetric env sent.1 sent.2.1 (events1 ++ sent.2.2)
  stopAndPause env first.1 first.2

/-- The function `CanaryStreamCallbackProvider::streamErrorReportHandler`
(lines 129-148): the status returned, the new `CustomData` and the calls
made. -/
def streamErrorReportHandler (X : Externals) (data : CustomData) (status_code : Nat) :
    Nat × CustomData × List Event :=
  let fatal := !X.IS_RETRIABLE_ERROR status_code && !X.IS_RECOVERABLE_ERROR status_code
  let data1 := if fatal then { data with streamStatus := status_code } else data
  let events := if fatal && data1.mainLoop then [Event.mainLoopQuit] else []
  (STATUS_SUCCESS, data1, events)

/-! ## Runs of the pump and what is observed of them -/

/-- A call of `on_new_sample` with what it takes from outside, or a call of
`streamErrorReportHandler` with the status code reported. -/
inductive PumpInput where
  | sample (env : SampleEnv)
  | streamError (status_code : Nat)

/-- A run of calls on `CustomData`: the final `CustomData` and, for each call
in order, the calls it made. -/
def runPump (X : Externals) : List PumpInput → CustomData →
    Except Undefined (CustomData × List (PumpInput × List Event))
  | [], data => Except.ok (data, [])
  | PumpInput.sample env :: rest, data =>
    match on_new_sample X env data with
    | Except.error u => Except.error u
    | Except.ok r =>
      match runPump X rest r.2.1 with
      | Except.error u => Except.error u
      | Except.ok q => Except.ok (q.1, (PumpInput.sample env, r.2.2) :: q.2)
  | PumpInput.streamError status_code :: rest, data =>
    match runPump X rest (streamErrorReportHandler X data status_code).2.1 with
    | Except.error u => Except.error u
    | Except.ok q =>
      Except.ok (q.1, (PumpInput.streamError status_code,
        (streamErrorReportHandler X data status_code).2.2) :: q.2)

/-- Whether a call is `putFrame`. -/
def isPutFrame : Event → Bool
  | Event.putFrame _ => true
  | _ => false

/-- Whether a call hands over a request with a sample named "StartupLatency". -/
def isStartupRequest : Event → Bool
  | Event.putMetricData cwRequest =>
    cwRequest.metricData.any (fun d => d.metricName == "StartupLatency")
  | _ => false

/-- The number of requests with a "StartupLatency" sample among the calls. -/
def startupRequests (events : List Event) : Nat := (events.filter isStartupRequest).length

/-- Whether a call of the run delivered a frame: it is a call of
`on_new_sample` that called `putFrame`, and `putFrame` returned success. -/
def delivered : PumpInput × List Event → Bool
  | (PumpInput.sample env, events) => events.any isPutFrame && env.putFrameResult
  | (PumpInput.streamError _, _) => false

/-- Whether the frame of a call of `on_new_sample` is one that is not dropped
(line 449), whose buffer is mapped (line 474) and that `putFrame` accepts. -/
def deliverable (env : SampleEnv) : Bool :=
  !isDroppable env.buffer && env.buffer.mappable && env.putFrameResult

/-- The contract of a metric request on dimensions, for a request built when
`useAggMetrics` has the value `agg`: every sample carries exactly one
dimension; no metric name occurs twice among the samples with the per-stream
dimension; the samples with the aggregated dimension are the per-stream
samples once more, same name, value and unit, when `agg` is set, and there are
none otherwise; and the request has at most 20 samples. -/
def DimensionContract (agg : Bool) (cwRequest : PutMetricDataRequest) : Prop :=
  (∀ d ∈ cwRequest.metricData,
    d.dimensions = [Dimension.perStream] ∨ d.dimensions = [Dimension.aggregated]) ∧
  ((cwRequest.metricData.filter
    (fun d => d.dimensions == [Dimension.perStream])).map (fun d => d.metricName)).Nodup ∧
  cwRequest.metricData.filter (fun d => d.dimensions == [Dimension.aggregated]) =
    (if agg then
      (cwRequest.metricData.filter (fun d => d.dimensions == [Dimension.perStream])).map
        (fun d => { d with dimensions := [Dimension.aggregated] })
    else []) ∧
  cwRequest.metricData.filter (fun d => d.dimensions == [Dimension.perStream]) ≠ [] ∧
  cwRequest.metricData.length ≤ 20

/-- A run of `pushErrorMetrics` passes, each with the raw counters it reads and
the interval it is given: the final `CustomData` and, for each pass in order,
the two differences it computes (lines 279 and 285) and the request it sends. -/
def errorPasses (X : Externals) : List (StreamMetrics × Rat) → CustomData →
    CustomData × List (Nat × Nat × PutMetricDataRequest)
  | [], cusData => (cusData, [])
  | (raw, duration) :: rest, cusData =>
    let pass := pushErrorMetrics X cusData raw duration
    let tail := errorPasses X rest pass.1
    (tail.1,
      (subUInt64 raw.putFrameErrors cusData.totalPutFrameErrorCount,
        subUInt64 raw.errorAcks cusData.totalErrorAckCount, pass.2) :: tail.2)

/-! ## Lemmas on the map operations -/

theorem toUInt64_of_nonneg (x : Int) (h0 : 0 ≤ x) (h1 : x < 2 ^ 63) :
    toUInt64 x = x.toNat := by
  unfold toUInt64
  rw [Int.emod_eq_of_lt h0 (by omega)]

theorem isStale_iff (now : Int) (key : Nat) (h0 : 300000 ≤ now) (h1 : now < 2 ^ 63) :
    isStale now key = true ↔ (key : Int) < now - 300000 := by
  unfold isStale
  rw [toUInt64_of_nonneg (now - 300000) (by omega) (by omega)]
  simp only [decide_eq_true_eq]
  omega

theorem isStale_mono (now : Int) (a b : Nat) (hab : a ≤ b) (hb : isStale now b = true) :
    isStale now a = true := by
  unfold isStale at *
  simp only [decide_eq_true_eq] at *
  omega

theorem mem_mapAssign_self (m : KeyFrameMap) (key value : Nat) :
    (key, value) ∈ mapAssign m key value := by
  induction m with
  | nil => simp [mapAssign]
  | cons e rest ih =>
    obtain ⟨k, v⟩ := e
    unfold mapAssign
    split_ifs <;> simp [ih]

theorem mem_mapAssign_of_mem (m : KeyFrameMap) (key value : Nat) (e : Nat × Nat)
    (he : e ∈ m) (hk : e.1 ≠ key) : e ∈ mapAssign m key value := by
  induction m with
  | nil => simp at he
  | cons e0 rest ih =>
    obtain ⟨k, v⟩ := e0
    unfold mapAssign
    rcases List.mem_cons.1 he with rfl | hr
    · split_ifs with h1 h2
      · simp
      · exact absurd h2.symm hk
      · simp
    · split_ifs with h1 h2
      · simp [hr]
      · simp [hr]
      · simp [ih hr]

theorem mem_of_mem_mapAssign (m : KeyFrameMap) (key value : Nat) (e : Nat × Nat)
    (he : e ∈ mapAssign m key value) : e = (key, value) ∨ e ∈ m := by
  induction m with
  | nil => simpa [mapAssign] using he
  | cons e0 rest ih =>
    obtain ⟨k, v⟩ := e0
    unfold mapAssign at he
    split_ifs at he with h1 h2
    · simpa using he
    · rcases List.mem_cons.1 he with h | h
      · exact Or.inl h
      · exact Or.inr (List.mem_cons_of_mem _ h)
    · rcases List.mem_cons.1 he with h | h
      · exact Or.inr (h ▸ List.mem_cons_self _ _)
      · rcases ih h with h3 | h3
        · exact Or.inl h3
        · exact Or.inr (List.mem_cons_of_mem _ h3)

theorem ordered_mapAssign (m : KeyFrameMap) (key value : Nat) (hm : Ordered m) :
    Ordered (mapAssign m key value) := by
  induction m with
  | nil => simp [mapAssign, Ordered]
  | cons e0 rest ih =>
    obtain ⟨k, v⟩ := e0
    unfold Ordered at hm
    rw [List.pairwise_cons] at hm
    unfold mapAssign
    split_ifs with h1 h2
    · unfold Ordered
      rw [List.pairwise_cons, List.pairwise_cons]
      refine ⟨?_, hm.1, hm.2⟩
      intro a ha
      rcases List.mem_cons.1 ha with rfl | hr
      · exact h1
      · exact lt_trans h1 (hm.1 a hr)
    · subst h2
      unfold Ordered
      rw [List.pairwise_cons]
      exact ⟨hm.1, hm.2⟩
    · unfold Ordered
      rw [List.pairwise_cons]
      refine ⟨?_, ih hm.2⟩
      intro a ha
      rcases mem_of_mem_mapAssign rest key value a ha with rfl | hr
      · show k < key
        omega
      · exact hm.1 a hr

/-! ## Lemmas on the eviction loop -/

theorem mem_of_mem_evictLoop (clock : Nat → Int) (m : KeyFrameMap) (i : Nat) (e : Nat × Nat)
    (he : e ∈ evictLoop clock i m) : e ∈ m := by
  induction m generalizing i with
  | nil => simp [evictLoop] at he
  | cons e0 rest ih =>
    obtain ⟨k, v⟩ := e0
    unfold evictLoop at he
    split_ifs at he with h
    · exact List.mem_cons_of_mem _ (ih (i + 1) he)
    · exact he

/-- The loop keeps a suffix of the map, so the map stays ordered. -/
theorem ordered_evictLoop (clock : Nat → Int) (m : KeyFrameMap) (i : Nat) (hm : Ordered m) :
    Ordered (evictLoop clock i m) := by
  induction m generalizing i with
  | nil => simpa [evictLoop] using hm
  | cons e0 rest ih =>
    obtain ⟨k, v⟩ := e0
    unfold evictLoop
    split_ifs with h
    · unfold Ordered at hm
      rw [List.pairwise_cons] at hm
      exact ih (i + 1) hm.2
    · exact hm

/-- An entry that no clock reading of the call finds stale survives the loop. -/
theorem mem_evictLoop_of_fresh (clock : Nat → Int) (m : KeyFrameMap) (i : Nat) (e : Nat × Nat)
    (he : e ∈ m) (hf : ∀ j, isStale (clock j) e.1 = false) : e ∈ evictLoop clock i m := by
  induction m generalizing i with
  | nil => simp at he
  | cons e0 rest ih =>
    obtain ⟨k, v⟩ := e0
    unfold evictLoop
    split_ifs with h
    · rcases List.mem_cons.1 he with rfl | hr
      · rw [hf i] at h
        exact absurd h (by simp)
      · exact ih (i + 1) hr
    · exact he

/-- The loop leaves a map alone when its first entry is not stale. -/
theorem evictLoop_eq_self (now : Int) (m : KeyFrameMap) (i : Nat)
    (hf : ∀ e ∈ m, isStale now e.1 = false) : evictLoop (fun _ => now) i m = m := by
  cases m with
  | nil => rfl
  | cons e0 rest =>
    obtain ⟨k, v⟩ := e0
    unfold evictLoop
    have := hf (k, v) (List.mem_cons_self _ _)
    simp only at this
    simp [this]

/-- On an ordered map, with one clock value for the whole call, the prefix scan
of the loop removes exactly the stale entries. -/
theorem evictLoop_eq_filter (now : Int) (m : KeyFrameMap) (i : Nat) (hm : Ordered m) :
    evictLoop (fun _ => now) i m = m.filter (fun e => !isStale now e.1) := by
  induction m generalizing i with
  | nil => rfl
  | cons e0 rest ih =>
    obtain ⟨k, v⟩ := e0
    unfold Ordered at hm
    rw [List.pairwise_cons] at hm
    unfold evictLoop
    split_ifs with h
    · rw [ih (i + 1) hm.2, List.filter_cons]
      simp [h]
    · have hall : ∀ e ∈ (k, v) :: rest, (!isStale now e.1) = true := by
        intro e he
        rcases List.mem_cons.1 he with rfl | hr
        · simpa using h
        · have hlt : k < e.1 := hm.1 e hr
          cases hs : isStale now e.1 with
          | false => rfl
          | true => exact absurd (isStale_mono now k e.1 (Nat.le_of_lt hlt) hs) h
      exact (List.filter_eq_self.2 hall).symm

theorem length_mapAssign (m : KeyFrameMap) (key value : Nat) :
    m.length ≤ (mapAssign m key value).length := by
  induction m with
  | nil => simp [mapAssign]
  | cons e0 rest ih =>
    obtain ⟨k, v⟩ := e0
    unfold mapAssign
    split_ifs <;> simp [ih]

theorem key_mem_mapAssign (m : KeyFrameMap) (key value k : Nat)
    (hk : k ∈ m.map Prod.fst) : k ∈ (mapAssign m key value).map Prod.fst := by
  rw [List.mem_map] at hk ⊢
  obtain ⟨e, he, rfl⟩ := hk
  by_cases h : e.1 = key
  · exact ⟨(key, value), mem_mapAssign_self m key value, h.symm⟩
  · exact ⟨e, mem_mapAssign_of_mem m key value e he h, rfl⟩

/-! ## Lemmas on runs of `updateFragmentEndTimes` -/

theorem updateFragmentEndTimes_fst (clock : Nat → Int) (cur last : Nat) (m : KeyFrameMap) :
    (updateFragmentEndTimes clock cur last m).1 = cur := by
  unfold updateFragmentEndTimes
  split_ifs <;> rfl

theorem observeKeyFrames_append (xs ys : List ((Nat → Int) × Nat)) (s : Nat × KeyFrameMap) :
    observeKeyFrames (xs ++ ys) s = observeKeyFrames ys (observeKeyFrames xs s) := by
  unfold observeKeyFrames
  rw [List.foldl_append]

theorem observeKeyFrames_snoc_fst (xs : List ((Nat → Int) × Nat)) (c : Nat → Int) (t : Nat)
    (s : Nat × KeyFrameMap) : (observeKeyFrames (xs ++ [(c, t)]) s).1 = t := by
  rw [observeKeyFrames_append]
  simp [observeKeyFrames, updateFragmentEndTimes_fst]

/-- The class invariant of the map is kept by every call. -/
theorem ordered_updateFragmentEndTimes (clock : Nat → Int) (cur last : Nat) (m : KeyFrameMap)
    (hm : Ordered m) : Ordered (updateFragmentEndTimes clock cur last m).2 := by
  unfold updateFragmentEndTimes
  split_ifs with h
  · exact ordered_evictLoop clock _ 0 (ordered_mapAssign m _ _ hm)
  · exact hm

/-- Every key of the map after a call was a key before or is the millisecond
value of the previous key-frame timestamp. -/
theorem key_of_mem_updateFragmentEndTimes (clock : Nat → Int) (cur last : Nat) (m : KeyFrameMap)
    (e : Nat × Nat) (he : e ∈ (updateFragmentEndTimes clock cur last m).2) :
    e.1 = last / HUNDREDS_OF_NANOS_IN_A_MILLISECOND ∨ e ∈ m := by
  unfold updateFragmentEndTimes at he
  split_ifs at he with h
  · have h1 := mem_of_mem_evictLoop clock _ 0 e he
    rcases mem_of_mem_mapAssign m _ _ e h1 with h2 | h2
    · exact Or.inl (by rw [h2])
    · exact Or.inr h2
  · exact Or.inr he

/-- Along a run with non-decreasing timestamps no key exceeds the millisecond
value of the last key-frame timestamp. -/
theorem keys_le_observeKeyFrames (calls : List ((Nat → Int) × Nat)) (s : Nat × KeyFrameMap)
    (hs : ∀ e ∈ s.2, e.1 ≤ s.1 / HUNDREDS_OF_NANOS_IN_A_MILLISECOND)
    (hinc : (calls.map Prod.snd).Pairwise (fun x y => x < y))
    (hge : ∀ c ∈ calls, s.1 ≤ c.2) :
    ∀ e ∈ (observeKeyFrames calls s).2,
      e.1 ≤ (observeKeyFrames calls s).1 / HUNDREDS_OF_NANOS_IN_A_MILLISECOND := by
  induction calls generalizing s with
  | nil => simpa [observeKeyFrames] using hs
  | cons c rest ih =>
    have hstep : observeKeyFrames (c :: rest) s =
        observeKeyFrames rest (updateFragmentEndTimes c.1 c.2 s.1 s.2) := by
      simp [observeKeyFrames]
    rw [hstep]
    rw [List.map_cons, List.pairwise_cons] at hinc
    have hc : s.1 ≤ c.2 := hge c (List.mem_cons_self _ _)
    apply ih
    · intro e he
      rw [updateFragmentEndTimes_fst]
      have hdiv : s.1 / HUNDREDS_OF_NANOS_IN_A_MILLISECOND ≤
          c.2 / HUNDREDS_OF_NANOS_IN_A_MILLISECOND := Nat.div_le_div_right hc
      rcases key_of_mem_updateFragmentEndTimes c.1 c.2 s.1 s.2 e he with h | h
      · rw [h]
        exact hdiv
      · exact le_trans (hs e h) hdiv
    · exact hinc.2
    · intro d hd
      rw [updateFragmentEndTimes_fst]
      exact Nat.le_of_lt (hinc.1 d.2 (List.mem_map_of_mem _ hd))

/-- With one clock value for the whole call, a call with a known previous key
frame leaves the non-stale entries of the map after the assignment. -/
theorem updateFragmentEndTimes_eq_filter (m : KeyFrameMap) (last cur : Nat) (now : Int)
    (hm : Ordered m) (hlast : last ≠ 0) :
    (updateFragmentEndTimes (fun _ => now) cur last m).2 =
      (mapAssign m (last / HUNDREDS_OF_NANOS_IN_A_MILLISECOND)
        (cur / HUNDREDS_OF_NANOS_IN_A_MILLISECOND)).filter (fun e => !isStale now e.1) := by
  unfold updateFragmentEndTimes
  rw [if_pos hlast]
  exact evictLoop_eq_filter now _ 0 (ordered_mapAssign m _ _ hm)

theorem mapFind_of_mem (m : KeyFrameMap) (k v : Nat) (hm : Ordered m) (h : (k, v) ∈ m) :
    mapFind m k = some v := by
  induction m with
  | nil => simp at h
  | cons e0 rest ih =>
    obtain ⟨k0, v0⟩ := e0
    unfold Ordered at hm
    rw [List.pairwise_cons] at hm
    unfold mapFind
    rcases List.mem_cons.1 h with heq | hr
    · cases heq
      simp
    · have hlt : k0 < k := hm.1 (k, v) hr
      rw [if_neg (Nat.ne_of_lt hlt)]
      exact ih hm.2 hr

/-! ## The claims on `updateFragmentEndTimes` -/

/-- Claim C1, as stated, fails in three ways.  (a) The entry of the previous
key frame is erased in the very call that inserts it when the clock finds it
older than five minutes: timestamps 10000 < 20000 at clock 1700000000000.
(b) A first timestamp 0 is taken for "no previous key frame", so the second
call inserts nothing.  (c) Two timestamps 10000 < 10001 have the same
millisecond value 1, which is a key after the second call. -/
theorem c1_counterexample :
    ((10000 : Nat) < 20000 ∧
      (10000 / HUNDREDS_OF_NANOS_IN_A_MILLISECOND, 20000 / HUNDREDS_OF_NANOS_IN_A_MILLISECOND) ∉
        (observeKeyFrames
          [(fun _ => 1700000000000, 10000), (fun _ => 1700000000000, 20000)] (0, [])).2) ∧
    ((0 : Nat) < 20000 ∧
      (0 / HUNDREDS_OF_NANOS_IN_A_MILLISECOND, 20000 / HUNDREDS_OF_NANOS_IN_A_MILLISECOND) ∉
        (observeKeyFrames [(fun _ => 300000, 0), (fun _ => 300000, 20000)] (0, [])).2) ∧
    ((10000 : Nat) < 10001 ∧
      10001 / HUNDREDS_OF_NANOS_IN_A_MILLISECOND ∈
        ((observeKeyFrames
          [(fun _ => 300000, 10000), (fun _ => 300000, 10001)] (0, [])).2).map Prod.fst) := by
  decide

/-- Claim C1, amended.  Take any run of calls from the empty map with
`lastKeyFrameTime = 0` whose key-frame timestamps are strictly increasing and
which has at least two calls; `a` and `b` are its last two timestamps and `cb`
gives the clock readings made during the last call (a prefix of such a run is
such a run, so this is the state right after the i-th call for every i > 1).
If `a` is not 0 and no clock reading of the last call finds the key `ms a`
stale, the map holds the entry `ms a -> ms b`; and if `ms a < ms b`, the map
has no key `ms b`. -/
theorem c1_entry_after_call (pre : List ((Nat → Int) × Nat)) (ca cb : Nat → Int) (a b : Nat)
    (hinc : ((pre ++ [(ca, a), (cb, b)]).map Prod.snd).Pairwise (fun x y => x < y)) :
    (a ≠ 0 → (∀ j, isStale (cb j) (a / HUNDREDS_OF_NANOS_IN_A_MILLISECOND) = false) →
      (a / HUNDREDS_OF_NANOS_IN_A_MILLISECOND, b / HUNDREDS_OF_NANOS_IN_A_MILLISECOND) ∈
        (observeKeyFrames (pre ++ [(ca, a), (cb, b)]) (0, [])).2) ∧
    (a / HUNDREDS_OF_NANOS_IN_A_MILLISECOND < b / HUNDREDS_OF_NANOS_IN_A_MILLISECOND →
      ∀ e ∈ (observeKeyFrames (pre ++ [(ca, a), (cb, b)]) (0, [])).2,
        e.1 ≠ b / HUNDREDS_OF_NANOS_IN_A_MILLISECOND) := by
  have hsplit : pre ++ [(ca, a), (cb, b)] = (pre ++ [(ca, a)]) ++ [(cb, b)] := by simp
  have hrun : observeKeyFrames (pre ++ [(ca, a), (cb, b)]) (0, []) =
      updateFragmentEndTimes cb b a (observeKeyFrames (pre ++ [(ca, a)]) (0, [])).2 := by
    rw [hsplit, observeKeyFrames_append]
    have h1 := observeKeyFrames_snoc_fst pre ca a (0, [])
    simp only [observeKeyFrames, List.foldl_cons, List.foldl_nil] at h1 ⊢
    rw [h1]
  rw [hrun]
  constructor
  · intro ha hfresh
    unfold updateFragmentEndTimes
    rw [if_pos ha]
    exact mem_evictLoop_of_fresh cb _ 0 _ (mem_mapAssign_self _ _ _) hfresh
  · intro hms e he
    have hinc1 : ((pre ++ [(ca, a)]).map Prod.snd).Pairwise (fun x y => x < y) := by
      rw [hsplit, List.map_append, List.pairwise_append] at hinc
      exact hinc.1
    have hkeys := keys_le_observeKeyFrames (pre ++ [(ca, a)]) (0, []) (by simp) hinc1
      (by intro c _; exact Nat.zero_le _)
    rw [observeKeyFrames_snoc_fst] at hkeys
    rcases key_of_mem_updateFragmentEndTimes cb b a _ e he with h | h
    · omega
    · have := hkeys e h
      omega

/-- Claim C1, amended, at a concrete run: timestamps 10000 < 20000 observed
while the clock reads 300000 ms. -/
theorem c1_witness :
    (10000 / HUNDREDS_OF_NANOS_IN_A_MILLISECOND, 20000 / HUNDREDS_OF_NANOS_IN_A_MILLISECOND) ∈
      (observeKeyFrames ([] ++ [(fun _ => 300000, 10000), (fun _ => 300000, 20000)]) (0, [])).2 ∧
    ∀ e ∈ (observeKeyFrames ([] ++ [(fun _ => 300000, 10000), (fun _ => 300000, 20000)])
        (0, [])).2,
      e.1 ≠ 20000 / HUNDREDS_OF_NANOS_IN_A_MILLISECOND :=
  ⟨(c1_entry_after_call [] (fun _ => 300000) (fun _ => 300000) 10000 20000 (by decide)).1
      (by decide) (fun _ => by decide),
    (c1_entry_after_call [] (fun _ => 300000) (fun _ => 300000) 10000 20000 (by decide)).2
      (by decide)⟩

/-- Claim C2, as stated, fails when the clock reads less than 300000 ms: the
difference `now - 300000` is negative and is compared as a `uint64_t`, so at
`now = 1000` both entries of the map after the assignment, keys 5 and 7, are
erased although neither is below `now - 300000`. -/
theorem c2_counterexample :
    (updateFragmentEndTimes (fun _ => 1000) 90000 70000 [(5, 6)]).2 ≠
      (mapAssign [(5, 6)] (70000 / HUNDREDS_OF_NANOS_IN_A_MILLISECOND)
        (90000 / HUNDREDS_OF_NANOS_IN_A_MILLISECOND)).filter
          (fun e => decide ((1000 : Int) - 300000 ≤ (e.1 : Int))) := by
  decide

/-- Claim C2, amended: for every ordered map `m`, every non-zero
`lastKeyFrameTime`, every `curKeyFrameTime` and every clock value `now` of at
least 300000 ms (and within the signed 64-bit range of the clock),
`updateFragmentEndTimes` leaves exactly the entries of
`m[last / 10000 := cur / 10000]` whose key is at least `now - 300000`, each
with its value: the prefix scan equals the filter of the whole map. -/
theorem c2_eviction_is_filter (m : KeyFrameMap) (last cur : Nat) (now : Int)
    (hm : Ordered m) (hlast : last ≠ 0) (h0 : 300000 ≤ now) (h1 : now < 2 ^ 63) :
    (updateFragmentEndTimes (fun _ => now) cur last m).2 =
      (mapAssign m (last / HUNDREDS_OF_NANOS_IN_A_MILLISECOND)
        (cur / HUNDREDS_OF_NANOS_IN_A_MILLISECOND)).filter
          (fun e => decide (now - 300000 ≤ (e.1 : Int))) := by
  rw [updateFragmentEndTimes_eq_filter m last cur now hm hlast]
  apply List.filter_congr
  intro e _
  have h := isStale_iff now e.1 h0 h1
  cases hs : isStale now e.1 with
  | false =>
    have : ¬ ((e.1 : Int) < now - 300000) := by
      intro hc
      rw [h.2 hc] at hs
      exact absurd hs (by simp)
    simp only [Bool.not_false]
    exact (decide_eq_true (by omega)).symm
  | true =>
    have := h.1 hs
    simp only [Bool.not_true]
    exact (decide_eq_false (by omega)).symm

/-- Claim C2, amended, at a concrete call: the map holds keys 1 and 400000,
the clock reads 700000 ms, and the keys 1 and 7 are below the threshold. -/
theorem c2_witness :
    (updateFragmentEndTimes (fun _ => 700000) 90000 70000 [(1, 2), (400000, 400001)]).2 =
      (mapAssign [(1, 2), (400000, 400001)] (70000 / HUNDREDS_OF_NANOS_IN_A_MILLISECOND)
        (90000 / HUNDREDS_OF_NANOS_IN_A_MILLISECOND)).filter
          (fun e => decide ((700000 : Int) - 300000 ≤ (e.1 : Int))) :=
  c2_eviction_is_filter [(1, 2), (400000, 400001)] 70000 90000 700000
    (by decide) (by decide) (by decide) (by decide)

/-! ## The claims on `fragmentAckReceivedHandler` -/

/-- A received or persisted acknowledgment whose timestamp is not a key makes
the handler apply `->second` to `end()`. -/
theorem fragmentAckReceivedHandler_miss (now : Int) (data : CustomData) (ack : FragmentAck)
    (htype : ack.ackType = FRAGMENT_ACK_TYPE.RECEIVED ∨ ack.ackType = FRAGMENT_ACK_TYPE.PERSISTED)
    (hmiss : mapFind data.timeOfNextKeyFrame ack.timestamp = none) :
    fragmentAckReceivedHandler now data ack = Except.error Undefined.derefEnd := by
  unfold fragmentAckReceivedHandler
  rcases htype with h | h <;> simp [h, hmiss]

/-- A received or persisted acknowledgment whose timestamp is a key makes the
handler reach its closing brace without a `return` statement, after the
requests of lines 171-219. -/
theorem fragmentAckReceivedHandler_present (now : Int) (data : CustomData) (ack : FragmentAck)
    (fragmentEnd : Nat)
    (htype : ack.ackType = FRAGMENT_ACK_TYPE.RECEIVED ∨ ack.ackType = FRAGMENT_ACK_TYPE.PERSISTED)
    (hfind : mapFind data.timeOfNextKeyFrame ack.timestamp = some fragmentEnd) :
    fragmentAckReceivedHandler now data ack =
      Except.error (Undefined.noReturn (ackLatencyRequests now data ack fragmentEnd)) := by
  unfold fragmentAckReceivedHandler
  rcases htype with h | h <;> simp [h, hfind]

/-- A `double` holds every integer up to `2 ^ 53` exactly. -/
theorem toDouble_of_le (n : Nat) (h : n ≤ 2 ^ 53) : toDouble n = n := by
  rcases Nat.lt_or_ge n (2 ^ 53) with h1 | h1
  · have h0 : (List.range 11).filter (fun k => 2 ^ (53 + k) ≤ n) = [] := by
      rw [List.filter_eq_nil_iff]
      intro k _
      have : 2 ^ 53 ≤ 2 ^ (53 + k) := Nat.pow_le_pow_right (by decide) (by omega)
      simp only [decide_eq_true_eq]
      omega
    unfold toDouble
    simp [h0, Nat.mod_one]
  · have : n = 2 ^ 53 := le_antisymm h h1
    subst this
    decide

/-- The latency of lines 182 and 200 when the clock is not behind the
fragment end. -/
theorem ackLatency_eq (now : Int) (fragmentEnd : Nat) (hnow : (fragmentEnd : Int) ≤ now)
    (h1 : now < 2 ^ 63) :
    toUInt64 (now - (fragmentEnd : Int)) = (now - (fragmentEnd : Int)).toNat :=
  toUInt64_of_nonneg _ (by omega) (by omega)

/-- The request that lines 177-190 (and 195-207) build for a latency: one
sample with the per-stream dimension, followed by the same sample with the
aggregated dimension when `useAggMetrics` is set. -/
theorem ackLatency_request (name : String) (value : Rat) (agg : Bool) :
    (if agg then
        pushMetric name value StandardUnit.Milliseconds {} Dimension.aggregated
          (pushMetric name value StandardUnit.Milliseconds {} Dimension.perStream
            { nameSpace := "KinesisVideoSDKCanary" })
      else
        pushMetric name value StandardUnit.Milliseconds {} Dimension.perStream
          { nameSpace := "KinesisVideoSDKCanary" }).metricData =
      { metricName := name, dimensions := [Dimension.perStream], value := value,
        unit := some StandardUnit.Milliseconds } ::
        (if agg then
          [{ metricName := name, dimensions := [Dimension.aggregated], value := value,
             unit := some StandardUnit.Milliseconds }]
        else []) := by
  cases agg <;> simp [pushMetric]

/-- The samples that lines 171-219 hand over for a received or persisted
acknowledgment whose entry has a greater value. -/
theorem samples_ackLatencyRequests (now : Int) (data : CustomData) (ts fragmentEnd : Nat)
    (t : FRAGMENT_ACK_TYPE) (name : String)
    (ht : (t = FRAGMENT_ACK_TYPE.PERSISTED ∧ name = "PersistedAckLatency") ∨
      (t = FRAGMENT_ACK_TYPE.RECEIVED ∧ name = "ReceivedAckLatency"))
    (hgt : ts < fragmentEnd) :
    samples (ackLatencyRequests now data { ackType := t, timestamp := ts } fragmentEnd) =
      { metricName := name, dimensions := [Dimension.perStream],
        value := ((toDouble (toUInt64 (now - (fragmentEnd : Int))) : Nat) : Rat),
        unit := some StandardUnit.Milliseconds } ::
        (if data.useAggMetrics then
          [{ metricName := name, dimensions := [Dimension.aggregated],
             value := ((toDouble (toUInt64 (now - (fragmentEnd : Int))) : Nat) : Rat),
             unit := some StandardUnit.Milliseconds }]
        else []) := by
  rcases ht with ⟨rfl, rfl⟩ | ⟨rfl, rfl⟩
  · unfold ackLatencyRequests
    rw [if_pos hgt]
    simp only [samples, List.map_cons, List.map_nil, List.flatten_cons, List.flatten_nil,
      List.append_nil]
    exact ackLatency_request _ _ _
  · unfold ackLatencyRequests
    rw [if_pos hgt]
    simp only [samples, List.map_cons, List.map_nil, List.flatten_cons, List.flatten_nil,
      List.append_nil]
    exact ackLatency_request _ _ _

/-- Lines 171-219 hand over nothing when the guard of line 171 is false. -/
theorem ackLatencyRequests_guard (now : Int) (data : CustomData) (ack : FragmentAck)
    (v : Nat) (hle : v ≤ ack.timestamp) : ackLatencyRequests now data ack v = [] := by
  unfold ackLatencyRequests
  rw [if_neg (by omega)]

/-- Every sample of that request has the name and the value of the latency. -/
theorem emitted_hit_all (name : String) (value : Rat) (data : CustomData) (d : MetricDatum)
    (hd : d ∈ MetricDatum.mk name [Dimension.perStream] value (some StandardUnit.Milliseconds) ::
        (if data.useAggMetrics then
          [MetricDatum.mk name [Dimension.aggregated] value (some StandardUnit.Milliseconds)]
        else [])) :
    d.metricName = name ∧ d.value = value := by
  cases hagg : data.useAggMetrics <;> simp [hagg] at hd
  · subst hd
    exact ⟨rfl, rfl⟩
  · rcases hd with hd | hd <;> subst hd <;> exact ⟨rfl, rfl⟩

/-- Claim C3 fails on the code: with an empty map, a persisted (or received)
acknowledgment for timestamp 5000 makes the handler take `->second` of the
`end()` iterator that `find` returned (line 169); the iterator of line 167 is
never compared with `end()`. -/
theorem c3_miss_dereferences_end :
    fragmentAckReceivedHandler 5250 { timeOfNextKeyFrame := [] }
        { ackType := FRAGMENT_ACK_TYPE.PERSISTED, timestamp := 5000 } =
      Except.error Undefined.derefEnd ∧
    fragmentAckReceivedHandler 5250 { timeOfNextKeyFrame := [] }
        { ackType := FRAGMENT_ACK_TYPE.RECEIVED, timestamp := 5000 } =
      Except.error Undefined.derefEnd :=
  ⟨rfl, rfl⟩

/-- Claim C4 fails on the code: when the ordered map holds the entry
`ts -> fragmentEnd` with `fragmentEnd > ts` and the clock reads
`now >= fragmentEnd`, a persisted (received) acknowledgment for `ts` makes the
handler hand over samples, all named "PersistedAckLatency"
("ReceivedAckLatency") and holding `now - fragmentEnd` converted to `double`,
which is `now - fragmentEnd` itself up to `2 ^ 53`; the handler then reaches
its closing brace without a `return` statement, so the call does not
complete. -/
theorem c4_latency_then_no_return (now : Int) (data : CustomData) (ts fragmentEnd : Nat)
    (hm : Ordered data.timeOfNextKeyFrame) (hmem : (ts, fragmentEnd) ∈ data.timeOfNextKeyFrame)
    (hgt : ts < fragmentEnd) (hnow : (fragmentEnd : Int) ≤ now) (h1 : now < 2 ^ 63) :
    (∃ sent, fragmentAckReceivedHandler now data
          { ackType := FRAGMENT_ACK_TYPE.PERSISTED, timestamp := ts } =
          Except.error (Undefined.noReturn sent) ∧
        samples sent ≠ [] ∧
        ∀ d ∈ samples sent, d.metricName = "PersistedAckLatency" ∧
          d.value = ((toDouble (now - (fragmentEnd : Int)).toNat : Nat) : Rat) ∧
          (now - (fragmentEnd : Int) ≤ 2 ^ 53 →
            d.value = ((now - (fragmentEnd : Int) : Int) : Rat))) ∧
    (∃ sent, fragmentAckReceivedHandler now data
          { ackType := FRAGMENT_ACK_TYPE.RECEIVED, timestamp := ts } =
          Except.error (Undefined.noReturn sent) ∧
        samples sent ≠ [] ∧
        ∀ d ∈ samples sent, d.metricName = "ReceivedAckLatency" ∧
          d.value = ((toDouble (now - (fragmentEnd : Int)).toNat : Nat) : Rat) ∧
          (now - (fragmentEnd : Int) ≤ 2 ^ 53 →
            d.value = ((now - (fragmentEnd : Int) : Int) : Rat))) := by
  have hfind := mapFind_of_mem _ ts fragmentEnd hm hmem
  have hlat := ackLatency_eq now fragmentEnd hnow h1
  have hexact : now - (fragmentEnd : Int) ≤ 2 ^ 53 →
      ((toDouble (now - (fragmentEnd : Int)).toNat : Nat) : Rat) =
        ((now - (fragmentEnd : Int) : Int) : Rat) := by
    intro hle
    rw [toDouble_of_le _ (by omega)]
    have h : (((now - (fragmentEnd : Int)).toNat : Nat) : Int) = now - (fragmentEnd : Int) :=
      Int.toNat_of_nonneg (by omega)
    rw [← h, Int.cast_natCast, h]
  constructor
  · refine ⟨_, fragmentAckReceivedHandler_present now data
      { ackType := FRAGMENT_ACK_TYPE.PERSISTED, timestamp := ts } fragmentEnd (Or.inr rfl) hfind,
      ?_, ?_⟩
    · rw [samples_ackLatencyRequests now data ts fragmentEnd FRAGMENT_ACK_TYPE.PERSISTED
        "PersistedAckLatency" (Or.inl ⟨rfl, rfl⟩) hgt]
      exact List.cons_ne_nil _ _
    · intro d hd
      rw [samples_ackLatencyRequests now data ts fragmentEnd FRAGMENT_ACK_TYPE.PERSISTED
        "PersistedAckLatency" (Or.inl ⟨rfl, rfl⟩) hgt, hlat] at hd
      have := emitted_hit_all _ _ data d hd
      exact ⟨this.1, this.2, fun hle => this.2.trans (hexact hle)⟩
  · refine ⟨_, fragmentAckReceivedHandler_present now data
      { ackType := FRAGMENT_ACK_TYPE.RECEIVED, timestamp := ts } fragmentEnd (Or.inl rfl) hfind,
      ?_, ?_⟩
    · rw [samples_ackLatencyRequests now data ts fragmentEnd FRAGMENT_ACK_TYPE.RECEIVED
        "ReceivedAckLatency" (Or.inr ⟨rfl, rfl⟩) hgt]
      exact List.cons_ne_nil _ _
    · intro d hd
      rw [samples_ackLatencyRequests now data ts fragmentEnd FRAGMENT_ACK_TYPE.RECEIVED
        "ReceivedAckLatency" (Or.inr ⟨rfl, rfl⟩) hgt, hlat] at hd
      have := emitted_hit_all _ _ data d hd
      exact ⟨this.1, this.2, fun hle => this.2.trans (hexact hle)⟩

/-- Claim C4 at the example of the spec: entry 5000 -> 5100, acknowledgment
for 5000 at clock 5250; the samples hold 150 and the call does not return. -/
theorem c4_witness :
    (∃ sent, fragmentAckReceivedHandler 5250 { timeOfNextKeyFrame := [(5000, 5100)] }
          { ackType := FRAGMENT_ACK_TYPE.PERSISTED, timestamp := 5000 } =
          Except.error (Undefined.noReturn sent) ∧
        samples sent ≠ [] ∧
        ∀ d ∈ samples sent, d.metricName = "PersistedAckLatency" ∧
          d.value = ((toDouble ((5250 : Int) - ((5100 : Nat) : Int)).toNat : Nat) : Rat) ∧
          ((5250 : Int) - ((5100 : Nat) : Int) ≤ 2 ^ 53 →
            d.value = (((5250 : Int) - ((5100 : Nat) : Int) : Int) : Rat))) ∧
    (∃ sent, fragmentAckReceivedHandler 5250 { timeOfNextKeyFrame := [(5000, 5100)] }
          { ackType := FRAGMENT_ACK_TYPE.RECEIVED, timestamp := 5000 } =
          Except.error (Undefined.noReturn sent) ∧
        samples sent ≠ [] ∧
        ∀ d ∈ samples sent, d.metricName = "ReceivedAckLatency" ∧
          d.value = ((toDouble ((5250 : Int) - ((5100 : Nat) : Int)).toNat : Nat) : Rat) ∧
          ((5250 : Int) - ((5100 : Nat) : Int) ≤ 2 ^ 53 →
            d.value = (((5250 : Int) - ((5100 : Nat) : Int) : Int) : Rat))) :=
  c4_latency_then_no_return 5250 { timeOfNextKeyFrame := [(5000, 5100)] } 5000 5100
    (by decide) (by decide) (by decide) (by decide) (by decide)

/-- Claim C5 fails on the code: when the ordered map holds an entry `ts -> v`
with `v <= ts`, a received or persisted acknowledgment for `ts` finds the
guard of line 171 false, hands over no request and reaches the closing brace
of the handler without a `return` statement, so the call does not complete;
an acknowledgment of another type returns `STATUS_SUCCESS` with nothing
sent. -/
theorem c5_guard_then_no_return (now : Int) (data : CustomData) (ts v : Nat)
    (t : FRAGMENT_ACK_TYPE)
    (hm : Ordered data.timeOfNextKeyFrame) (hmem : (ts, v) ∈ data.timeOfNextKeyFrame)
    (hle : v ≤ ts) :
    ((t = FRAGMENT_ACK_TYPE.RECEIVED ∨ t = FRAGMENT_ACK_TYPE.PERSISTED) →
      fragmentAckReceivedHandler now data { ackType := t, timestamp := ts } =
        Except.error (Undefined.noReturn [])) ∧
    (t ≠ FRAGMENT_ACK_TYPE.RECEIVED → t ≠ FRAGMENT_ACK_TYPE.PERSISTED →
      fragmentAckReceivedHandler now data { ackType := t, timestamp := ts } =
        Except.ok { status := some STATUS_SUCCESS, sent := [], data := data }) := by
  have hfind := mapFind_of_mem _ ts v hm hmem
  constructor
  · intro ht
    rw [fragmentAckReceivedHandler_present now data { ackType := t, timestamp := ts } v ht hfind,
      ackLatencyRequests_guard now data { ackType := t, timestamp := ts } v hle]
  · intro h1 h2
    unfold fragmentAckReceivedHandler
    rw [if_pos ⟨h2, h1⟩]

/-- Claim C5 at a concrete entry whose value equals its key. -/
theorem c5_witness :
    fragmentAckReceivedHandler 5250 { timeOfNextKeyFrame := [(5000, 5000)] }
        { ackType := FRAGMENT_ACK_TYPE.PERSISTED, timestamp := 5000 } =
      Except.error (Undefined.noReturn []) :=
  (c5_guard_then_no_return 5250 { timeOfNextKeyFrame := [(5000, 5000)] } 5000 5000
    FRAGMENT_ACK_TYPE.PERSISTED (by decide) (by decide) (by decide)).1 (Or.inr rfl)

/-- Claim C6: an acknowledgment whose type is neither received nor persisted
makes the handler return `STATUS_SUCCESS` with no request sent and the data
untouched, whatever the map holds and whether or not the timestamp is a key. -/
theorem c6_other_ack_ignored (now : Int) (data : CustomData) (ack : FragmentAck)
    (h1 : ack.ackType ≠ FRAGMENT_ACK_TYPE.RECEIVED)
    (h2 : ack.ackType ≠ FRAGMENT_ACK_TYPE.PERSISTED) :
    fragmentAckReceivedHandler now data ack =
      Except.ok { status := some STATUS_SUCCESS, sent := [], data := data } := by
  unfold fragmentAckReceivedHandler
  rw [if_pos ⟨h2, h1⟩]

/-- Claim C6 at a buffering acknowledgment whose timestamp is not a key. -/
theorem c6_witness :
    fragmentAckReceivedHandler 5250 { timeOfNextKeyFrame := [(5000, 5100)] }
        { ackType := FRAGMENT_ACK_TYPE.BUFFERING, timestamp := 7 } =
      Except.ok { status := some STATUS_SUCCESS, sent := [],
                  data := { timeOfNextKeyFrame := [(5000, 5100)] } } :=
  c6_other_ack_ignored 5250 { timeOfNextKeyFrame := [(5000, 5100)] }
    { ackType := FRAGMENT_ACK_TYPE.BUFFERING, timestamp := 7 } (by decide) (by decide)

/-- A call that completes returned at line 163: it sent nothing and leaves the
data as they were. -/
theorem fragmentAckReceivedHandler_data (now : Int) (data : CustomData) (ack : FragmentAck)
    (r : HandlerResult) (h : fragmentAckReceivedHandler now data ack = Except.ok r) :
    r.data = data ∧ r.sent = [] := by
  unfold fragmentAckReceivedHandler at h
  split_ifs at h
  · simp only [Except.ok.injEq] at h
    subst h
    exact ⟨rfl, rfl⟩
  · cases hf : mapFind data.timeOfNextKeyFrame ack.timestamp <;> rw [hf] at h <;> cases h

/-- Claim C7 fails on the code: for every received or persisted
acknowledgment whose timestamp is a key of the map, the handler hands over
the requests of lines 171-219, which hold a latency sample when the entry has
a greater value, and then reaches its closing brace without a `return`
statement: no call for a timestamp that is present completes, the first as
little as a second one. -/
theorem c7_present_then_no_return (now : Int) (data : CustomData) (ack : FragmentAck)
    (fragmentEnd : Nat)
    (htype : ack.ackType = FRAGMENT_ACK_TYPE.RECEIVED ∨ ack.ackType = FRAGMENT_ACK_TYPE.PERSISTED)
    (hfind : mapFind data.timeOfNextKeyFrame ack.timestamp = some fragmentEnd) :
    fragmentAckReceivedHandler now data ack =
      Except.error (Undefined.noReturn (ackLatencyRequests now data ack fragmentEnd)) ∧
    (∀ r, fragmentAckReceivedHandler now data ack ≠ Except.ok r) ∧
    (ack.timestamp < fragmentEnd →
      samples (ackLatencyRequests now data ack fragmentEnd) ≠ []) := by
  have h := fragmentAckReceivedHandler_present now data ack fragmentEnd htype hfind
  refine ⟨h, ?_, ?_⟩
  · intro r hr
    rw [h] at hr
    cases hr
  · intro hgt
    obtain ⟨t, ts⟩ := ack
    rcases htype with ht | ht
    · simp only at ht
      subst ht
      rw [samples_ackLatencyRequests now data ts fragmentEnd FRAGMENT_ACK_TYPE.RECEIVED
        "ReceivedAckLatency" (Or.inr ⟨rfl, rfl⟩) hgt]
      exact List.cons_ne_nil _ _
    · simp only at ht
      subst ht
      rw [samples_ackLatencyRequests now data ts fragmentEnd FRAGMENT_ACK_TYPE.PERSISTED
        "PersistedAckLatency" (Or.inl ⟨rfl, rfl⟩) hgt]
      exact List.cons_ne_nil _ _

/-- Claim C7 at the example entry 5000 -> 5100 and a persisted acknowledgment. -/
theorem c7_witness :
    fragmentAckReceivedHandler 5250 { timeOfNextKeyFrame := [(5000, 5100)] }
        { ackType := FRAGMENT_ACK_TYPE.PERSISTED, timestamp := 5000 } =
      Except.error (Undefined.noReturn (ackLatencyRequests 5250
        { timeOfNextKeyFrame := [(5000, 5100)] }
        { ackType := FRAGMENT_ACK_TYPE.PERSISTED, timestamp := 5000 } 5100)) :=
  (c7_present_then_no_return 5250 { timeOfNextKeyFrame := [(5000, 5100)] }
    { ackType := FRAGMENT_ACK_TYPE.PERSISTED, timestamp := 5000 } 5100 (Or.inr rfl)
    (by decide)).1

/-! ## The claims on eviction and on `lastKeyFrameTime` -/

/-- Claim C8, as stated, fails when `lastKeyFrameTime` is 0: the loop is inside
the branch `lastKeyFrameTime != 0`, so the call at clock 1700000000000 leaves
the entry with key 1 in the map although it is far older than five minutes. -/
theorem c8_counterexample :
    (1, 2) ∈ (updateFragmentEndTimes (fun _ => 1700000000000) 17000000000000000 0 [(1, 2)]).2 ∧
      ((1 : Nat) : Int) < (1700000000000 : Int) - 300000 := by
  decide

/-- Claim C8, amended: for every ordered map, every non-zero
`lastKeyFrameTime` and every call made at clock value `now` (within the signed
64-bit range of the clock), no entry with key below `now - 300000` is in the
map after the call. -/
theorem c8_no_stale_entry_left (m : KeyFrameMap) (last cur : Nat) (now : Int)
    (hm : Ordered m) (hlast : last ≠ 0) (h1 : now < 2 ^ 63) :
    ∀ e ∈ (updateFragmentEndTimes (fun _ => now) cur last m).2,
      ¬ ((e.1 : Int) < now - 300000) := by
  intro e he hlt
  have h0 : 300000 ≤ now := by omega
  rw [updateFragmentEndTimes_eq_filter m last cur now hm hlast, List.mem_filter] at he
  have hs := (isStale_iff now e.1 h0 h1).2 hlt
  rw [hs] at he
  exact absurd he.2 (by simp)

/-- Claim C8, amended, at a concrete call: previous key frame at 70000, map
with keys 1 and 400000, clock at 700000 ms. -/
theorem c8_witness :
    Ordered [(1, 2), (400000, 400001)] ∧ (70000 : Nat) ≠ 0 ∧ (700000 : Int) < 2 ^ 63 ∧
      ∀ e ∈ (updateFragmentEndTimes (fun _ => 700000) 90000 70000
          [(1, 2), (400000, 400001)]).2,
        ¬ ((e.1 : Int) < (700000 : Int) - 300000) :=
  ⟨by decide, by decide, by decide,
    c8_no_stale_entry_left [(1, 2), (400000, 400001)] 70000 90000 700000
      (by decide) (by decide) (by decide)⟩

/-- Claim C9, as stated, fails when the clock reads less than 300000 ms: at
`now = 1000` no key of the map (5) and not the inserted key (7) is below
`now - 300000`, which is negative, yet the call empties the map, because the
negative difference is compared as a `uint64_t`. -/
theorem c9_counterexample :
    (∀ e ∈ [((5 : Nat), (6 : Nat))], ¬ ((e.1 : Int) < (1000 : Int) - 300000)) ∧
    ¬ (((70000 / HUNDREDS_OF_NANOS_IN_A_MILLISECOND : Nat) : Int) < (1000 : Int) - 300000) ∧
    (updateFragmentEndTimes (fun _ => 1000) 90000 70000 [(5, 6)]).2.length <
      [((5 : Nat), (6 : Nat))].length ∧
    5 ∉ ((updateFragmentEndTimes (fun _ => 1000) 90000 70000 [(5, 6)]).2).map Prod.fst := by
  decide

/-- Claim C9, amended: for every call made at a clock value `now` of at least
300000 ms (within the signed 64-bit range of the clock) such that no key of
the map, and not the key being inserted when `lastKeyFrameTime` is not 0, is
below `now - 300000`, every key present before the call is present after it
and the map has at least as many entries as before. -/
theorem c9_map_does_not_shrink (m : KeyFrameMap) (last cur : Nat) (now : Int)
    (h0 : 300000 ≤ now) (h1 : now < 2 ^ 63)
    (hkeys : ∀ e ∈ m, ¬ ((e.1 : Int) < now - 300000))
    (hnew : last ≠ 0 →
      ¬ (((last / HUNDREDS_OF_NANOS_IN_A_MILLISECOND : Nat) : Int) < now - 300000)) :
    (∀ k ∈ m.map Prod.fst, k ∈ ((updateFragmentEndTimes (fun _ => now) cur last m).2).map Prod.fst) ∧
      m.length ≤ (updateFragmentEndTimes (fun _ => now) cur last m).2.length := by
  unfold updateFragmentEndTimes
  by_cases hlast : last = 0
  · rw [if_neg (by simpa using hlast)]
    exact ⟨fun k hk => hk, le_refl _⟩
  · rw [if_pos hlast]
    have hfresh : ∀ e ∈ mapAssign m (last / HUNDREDS_OF_NANOS_IN_A_MILLISECOND)
        (cur / HUNDREDS_OF_NANOS_IN_A_MILLISECOND), isStale now e.1 = false := by
      intro e he
      have hnot : ¬ ((e.1 : Int) < now - 300000) := by
        rcases mem_of_mem_mapAssign m _ _ e he with h | h
        · rw [h]
          exact hnew hlast
        · exact hkeys e h
      cases hs : isStale now e.1 with
      | false => rfl
      | true => exact absurd ((isStale_iff now e.1 h0 h1).1 hs) hnot
    rw [evictLoop_eq_self now _ 0 hfresh]
    exact ⟨fun k hk => key_mem_mapAssign m _ _ k hk, length_mapAssign m _ _⟩

/-- Claim C9, amended, at a concrete call: clock at 300005 ms, map with key 5,
previous key frame at 70000. -/
theorem c9_witness :
    (∀ k ∈ [((5 : Nat), (6 : Nat))].map Prod.fst,
        k ∈ ((updateFragmentEndTimes (fun _ => 300005) 90000 70000 [(5, 6)]).2).map Prod.fst) ∧
      [((5 : Nat), (6 : Nat))].length ≤
        (updateFragmentEndTimes (fun _ => 300005) 90000 70000 [(5, 6)]).2.length :=
  c9_map_does_not_shrink [(5, 6)] 70000 90000 300005 (by decide) (by decide) (by decide)
    (fun _ => by decide)

/-- Claim C10: after every call `lastKeyFrameTime` equals `curKeyFrameTime`, and
a call entered with `lastKeyFrameTime = 0` inserts nothing and leaves the map
exactly as it was. -/
theorem c10_last_is_cur (clock : Nat → Int) (cur last : Nat) (m : KeyFrameMap) :
    (updateFragmentEndTimes clock cur last m).1 = cur ∧
      (updateFragmentEndTimes clock cur 0 m).2 = m := by
  constructor
  · exact updateFragmentEndTimes_fst clock cur last m
  · unfold updateFragmentEndTimes
    simp

/-! ## Lemmas on the frame pump -/

/-- The exit of line 426: a failed stream status ends the call at once. -/
theorem on_new_sample_failed (X : Externals) (env : SampleEnv) (data : CustomData)
    (hf : STATUS_FAILED data.streamStatus = true) :
    on_new_sample X env data = Except.ok (GstFlowReturn.GST_FLOW_ERROR, data, []) := by
  unfold on_new_sample
  rw [if_pos hf]

/-- A dropped frame goes straight to the stop-time check and the pause. -/
theorem on_new_sample_dropped (X : Externals) (env : SampleEnv) (data : CustomData)
    (hf : STATUS_FAILED data.streamStatus = false) (hd : isDroppable env.buffer = true) :
    on_new_sample X env data =
      Except.ok (stopAndPause env { data with streamStarted := true }
        (if data.streamStarted then [] else [Event.start])) := by
  unfold on_new_sample
  rw [if_neg (by simp [hf])]
  simp only [hd, if_true]

/-- The exit of line 475: the buffer cannot be mapped. -/
theorem on_new_sample_unmapped (X : Externals) (env : SampleEnv) (data : CustomData)
    (hf : STATUS_FAILED data.streamStatus = false) (hd : isDroppable env.buffer = false)
    (hm : env.buffer.mappable = false) :
    on_new_sample X env data =
      Except.ok (GstFlowReturn.GST_FLOW_OK,
        (frameTimes X env { data with streamStarted := true }).1,
        (if data.streamStarted then [] else [Event.start])) := by
  unfold on_new_sample
  rw [if_neg (by simp [hf])]
  simp [hd, hm]

/-- A frame that is handed to `put_frame`, when the frame can be built. -/
theorem on_new_sample_sent (X : Externals) (env : SampleEnv) (data : CustomData) (frame : Frame)
    (hf : STATUS_FAILED data.streamStatus = false) (hd : isDroppable env.buffer = false)
    (hm : env.buffer.mappable = true)
    (hc : create_kinesis_video_frame X env.frame env.uninit
      (toInt64 (frameTimes X env { data with streamStarted := true }).2.1)
      (toInt64 (frameTimes X env { data with streamStarted := true }).2.2)
      (kinesisVideoFlags env.buffer) env.buffer.payload env.buffer.payload.length =
        Except.ok frame) :
    on_new_sample X env data =
      Except.ok (afterFrameBuilt X env { data with streamStarted := true }
        (if data.streamStarted then [] else [Event.start]) frame) := by
  unfold on_new_sample
  rw [if_neg (by simp [hf])]
  unfold kinesisVideoFlags at hc
  simp only [hd, hm, put_frame, hc]
  rfl

/-- A frame that is handed to `put_frame`, when the frame cannot be built. -/
theorem on_new_sample_overflow (X : Externals) (env : SampleEnv) (data : CustomData)
    (u : Undefined)
    (hf : STATUS_FAILED data.streamStatus = false) (hd : isDroppable env.buffer = false)
    (hm : env.buffer.mappable = true)
    (hc : create_kinesis_video_frame X env.frame env.uninit
      (toInt64 (frameTimes X env { data with streamStarted := true }).2.1)
      (toInt64 (frameTimes X env { data with streamStarted := true }).2.2)
      (kinesisVideoFlags env.buffer) env.buffer.payload env.buffer.payload.length =
        Except.error u) :
    on_new_sample X env data = Except.error u := by
  unfold on_new_sample
  rw [if_neg (by simp [hf])]
  unfold kinesisVideoFlags at hc
  simp only [hd, hm, put_frame, hc]
  rfl

/-- The calls that the stop-time check and the pause add: `g_main_loop_quit`
exactly when the stop time is passed, `sleep` exactly when the pause is
entered, and nothing else. -/
theorem stopAndPause_events (env : SampleEnv) (data : CustomData) (events : List Event) :
    ∃ added, (stopAndPause env data events).2.2 = events ++ added ∧
      (∀ e ∈ added, e = Event.mainLoopQuit ∨ ∃ n, e = Event.sleep n) ∧
      (Event.mainLoopQuit ∈ added ↔
        toUInt64 (toInt32 env.nowSecondsStop) >
          data.producerStartTime / 1000000000 + data.canaryDuration) ∧
      ((∃ n, Event.sleep n ∈ added) ↔
        (data.canaryRunScenario = "Intermittent" ∧ env.nowMinutesPause > data.runTill)) := by
  unfold stopAndPause
  by_cases hs : toUInt64 (toInt32 env.nowSecondsStop) >
      data.producerStartTime / 1000000000 + data.canaryDuration <;>
    by_cases hp : data.canaryRunScenario = "Intermittent" ∧ env.nowMinutesPause > data.runTill
  · exact ⟨[Event.mainLoopQuit, Event.sleep ((env.rand1 % 10 + 1) * 60)],
      by simp [hs, hp], by simp, by simp [hs], by simp [hp]⟩
  · exact ⟨[Event.mainLoopQuit], by simp [hs, hp], by simp, by simp [hs], by simp [hp]⟩
  · exact ⟨[Event.sleep ((env.rand1 % 10 + 1) * 60)],
      by simp [hs, hp], by simp, by simp [hs], by simp [hp]⟩
  · exact ⟨[], by simp [hs, hp], by simp, by simp [hs], by simp [hp]⟩

/-- The pause empties the map and sets the two time stamps of the pause. -/
theorem stopAndPause_data_pause (env : SampleEnv) (data : CustomData) (events : List Event)
    (hp : data.canaryRunScenario = "Intermittent" ∧ env.nowMinutesPause > data.runTill) :
    (stopAndPause env data events).2.1 =
      { data with
        timeOfNextKeyFrame := []
        sleepTimeStamp := env.nowMsSleep
        runTill := env.nowMinutesRunTill + ((env.rand2 % 10 + 1 : Nat) : Int) } := by
  unfold stopAndPause
  simp only [hp, and_self, if_true]

/-- Without a pause the stop-time check leaves `CustomData` as it is. -/
theorem stopAndPause_data_run (env : SampleEnv) (data : CustomData) (events : List Event)
    (hp : ¬ (data.canaryRunScenario = "Intermittent" ∧ env.nowMinutesPause > data.runTill)) :
    (stopAndPause env data events).2.1 = data := by
  unfold stopAndPause
  simp only [hp, if_false]

/-- The stop-time check and the pause return `GST_FLOW_OK`. -/
theorem stopAndPause_flow (env : SampleEnv) (data : CustomData) (events : List Event) :
    (stopAndPause env data events).1 = GstFlowReturn.GST_FLOW_OK := by
  unfold stopAndPause
  split_ifs <;> rfl

/-- What the stop-time check and the pause keep of `CustomData`: every field
but the map, which is kept or emptied, and the two time stamps of the pause. -/
theorem stopAndPause_keeps (env : SampleEnv) (data : CustomData) (events : List Event) :
    (stopAndPause env data events).2.1.lastKeyFrameTime = data.lastKeyFrameTime ∧
    (stopAndPause env data events).2.1.onFirstFrame = data.onFirstFrame ∧
    (stopAndPause env data events).2.1.producerStartTime = data.producerStartTime ∧
    (stopAndPause env data events).2.1.canaryDuration = data.canaryDuration ∧
    (stopAndPause env data events).2.1.streamStatus = data.streamStatus ∧
    ((stopAndPause env data events).2.1.timeOfNextKeyFrame = data.timeOfNextKeyFrame ∨
      (stopAndPause env data events).2.1.timeOfNextKeyFrame = []) := by
  by_cases hp : data.canaryRunScenario = "Intermittent" ∧ env.nowMinutesPause > data.runTill
  · rw [stopAndPause_data_pause env data events hp]
    exact ⟨rfl, rfl, rfl, rfl, rfl, Or.inr rfl⟩
  · rw [stopAndPause_data_run env data events hp]
    exact ⟨rfl, rfl, rfl, rfl, rfl, Or.inl rfl⟩

/-- What lines 458-472 keep of `CustomData`. -/
theorem frameTimes_keeps (X : Externals) (env : SampleEnv) (data : CustomData) :
    (frameTimes X env data).1.lastKeyFrameTime = data.lastKeyFrameTime ∧
    (frameTimes X env data).1.timeOfNextKeyFrame = data.timeOfNextKeyFrame ∧
    (frameTimes X env data).1.onFirstFrame = data.onFirstFrame ∧
    (frameTimes X env data).1.canaryDuration = data.canaryDuration ∧
    (frameTimes X env data).1.streamStatus = data.streamStatus := by
  unfold frameTimes
  simp only
  split_ifs <;> exact ⟨rfl, rfl, rfl, rfl, rfl⟩

/-- What lines 389-409 do: `putFrame` is the first call, the other calls are
metric requests without a "StartupLatency" sample and the sending of the
logs; the result is that of `putFrame`; `onFirstFrame` is kept. -/
theorem putFrameAndMetrics_spec (X : Externals) (env : SampleEnv) (cusData : CustomData)
    (frame : Frame) (flags : FRAME_FLAGS) :
    (putFrameAndMetrics X env cusData frame flags).1 = env.putFrameResult ∧
    (putFrameAndMetrics X env cusData frame flags).2.1.onFirstFrame = cusData.onFirstFrame ∧
    (∃ rest, (putFrameAndMetrics X env cusData frame flags).2.2 = Event.putFrame frame :: rest ∧
      ∀ e ∈ rest, isStartupRequest e = false ∧ isPutFrame e = false ∧
        e ≠ Event.mainLoopQuit ∧ ∀ n, e ≠ Event.sleep n) := by
  unfold putFrameAndMetrics
  simp only
  split_ifs
  · refine ⟨rfl, ?_, _, rfl, ?_⟩
    · simp [pushErrorMetrics]
    · intro e he
      simp only [List.mem_cons, List.mem_singleton, List.not_mem_nil, or_false] at he
      rcases he with rfl | rfl | rfl | rfl
      · cases hagg : cusData.useAggMetrics <;>
          simp [isStartupRequest, isPutFrame, pushStreamMetrics, pushMetric, hagg]
      · cases hagg : cusData.useAggMetrics <;>
          simp [isStartupRequest, isPutFrame, pushClientMetrics, pushMetric, hagg]
      · cases hagg : cusData.useAggMetrics <;>
          simp [isStartupRequest, isPutFrame, pushErrorMetrics, pushMetric, hagg]
      · simp [isStartupRequest, isPutFrame]
  · refine ⟨rfl, rfl, _, rfl, ?_⟩
    intro e he
    simp only [List.mem_cons, List.mem_singleton, List.not_mem_nil, or_false] at he
    rcases he with rfl | rfl
    · cases hagg : cusData.useAggMetrics <;>
        simp [isStartupRequest, isPutFrame, pushStreamMetrics, pushMetric, hagg]
    · cases hagg : cusData.useAggMetrics <;>
        simp [isStartupRequest, isPutFrame, pushClientMetrics, pushMetric, hagg]
  · exact ⟨rfl, rfl, _, rfl, by simp⟩

/-- The request of `pushStartupLatencyMetric` has a "StartupLatency" sample. -/
theorem isStartupRequest_pushStartupLatencyMetric (data : CustomData) (now : Int) :
    isStartupRequest (Event.putMetricData (pushStartupLatencyMetric data now)) = true := by
  cases hagg : data.useAggMetrics <;>
    simp [isStartupRequest, pushStartupLatencyMetric, pushMetric, hagg]

theorem startupRequests_append (xs ys : List Event) :
    startupRequests (xs ++ ys) = startupRequests xs + startupRequests ys := by
  unfold startupRequests
  rw [List.filter_append, List.length_append]

theorem startupRequests_of_none (xs : List Event)
    (h : ∀ e ∈ xs, isStartupRequest e = false) : startupRequests xs = 0 := by
  unfold startupRequests
  rw [List.length_eq_zero, List.filter_eq_nil_iff]
  intro e he
  simp [h e he]

/-- What a call does once the frame is built: it reaches the stop-time check
with `onFirstFrame` cleared when `putFrame` succeeded, after calls among which
there is `putFrame`, no `sleep`, no `g_main_loop_quit`, and one request with a
"StartupLatency" sample exactly when `onFirstFrame` was set and `putFrame`
succeeded. -/
theorem afterFrameBuilt_spec (X : Externals) (env : SampleEnv) (data0 : CustomData)
    (events0 : List Event) (frame : Frame)
    (h0 : ∀ e ∈ events0, e = Event.start) :
    ∃ d ev, afterFrameBuilt X env data0 events0 frame = stopAndPause env d ev ∧
      d.onFirstFrame = (data0.onFirstFrame && !env.putFrameResult) ∧
      (∀ n, Event.sleep n ∉ ev) ∧ Event.mainLoopQuit ∉ ev ∧
      ev.any isPutFrame = true ∧
      startupRequests ev =
        (if data0.onFirstFrame = true ∧ env.putFrameResult = true then 1 else 0) := by
  obtain ⟨hret, hfirst, rest, hev, hrest⟩ := putFrameAndMetrics_spec X env
    (frameTimes X env data0).1 frame (kinesisVideoFlags env.buffer)
  have hft := (frameTimes_keeps X env data0).2.2.1
  -- the calls made before the startup metric
  have hpre : ∀ e ∈ (if CHECK_FRAME_FLAG_KEY_FRAME (kinesisVideoFlags env.buffer) then
        events0 ++ [Event.putEventMetadata] else events0) ++ Event.putFrame frame :: rest,
      isStartupRequest e = false ∧ e ≠ Event.mainLoopQuit ∧ ∀ n, e ≠ Event.sleep n := by
    intro e he
    rw [List.mem_append] at he
    rcases he with he | he
    · have : e = Event.start ∨ e = Event.putEventMetadata := by
        split_ifs at he
        · rw [List.mem_append, List.mem_singleton] at he
          exact he.imp (h0 e) id
        · exact Or.inl (h0 e he)
      rcases this with rfl | rfl
      · exact ⟨rfl, by simp, by simp⟩
      · exact ⟨rfl, by simp, by simp⟩
    · rcases List.mem_cons.1 he with rfl | hr
      · exact ⟨rfl, by simp, by simp⟩
      · exact ⟨(hrest e hr).1, (hrest e hr).2.2.1, (hrest e hr).2.2.2⟩
  have hput : ((if CHECK_FRAME_FLAG_KEY_FRAME (kinesisVideoFlags env.buffer) then
        events0 ++ [Event.putEventMetadata] else events0) ++
        Event.putFrame frame :: rest).any isPutFrame = true := by
    rw [List.any_append, List.any_cons]
    simp [isPutFrame]
  unfold afterFrameBuilt
  simp only
  rw [hret, hev]
  unfold firstFrameMetric
  rw [hfirst, hft]
  by_cases hc : data0.onFirstFrame = true ∧ env.putFrameResult = true
  · rw [if_pos hc]
    refine ⟨_, _, rfl, ?_, ?_, ?_, ?_, ?_⟩
    · simp [hc.1, hc.2]
    · intro n hn
      rw [List.mem_append, List.mem_singleton] at hn
      rcases hn with hn | hn
      · exact (hpre _ hn).2.2 n rfl
      · cases hn
    · intro hn
      rw [List.mem_append, List.mem_singleton] at hn
      rcases hn with hn | hn
      · exact (hpre _ hn).2.1 rfl
      · cases hn
    · rw [List.any_append, hput]
      rfl
    · rw [if_pos hc, startupRequests_append, startupRequests_of_none _ (fun e he => (hpre e he).1)]
      unfold startupRequests
      simp only [List.filter_cons, isStartupRequest_pushStartupLatencyMetric, if_true,
        List.filter_nil, List.length_singleton]
  · rw [if_neg hc]
    refine ⟨_, _, rfl, ?_, ?_, ?_, hput, ?_⟩
    · simp only [hfirst, hft]
      rw [not_and_or] at hc
      rcases hc with hc | hc
      · simp [hc]
      · simp [hc]
    · exact fun n hn => (hpre _ hn).2.2 n rfl
    · exact fun hn => (hpre _ hn).2.1 rfl
    · rw [if_neg hc]
      exact startupRequests_of_none _ (fun e he => (hpre e he).1)

/-- The four ways in which a call of `on_new_sample` completes. -/
theorem on_new_sample_cases (X : Externals) (env : SampleEnv) (data : CustomData)
    (r : GstFlowReturn × CustomData × List Event)
    (h : on_new_sample X env data = Except.ok r) :
    (STATUS_FAILED data.streamStatus = true ∧ r = (GstFlowReturn.GST_FLOW_ERROR, data, [])) ∨
    (STATUS_FAILED data.streamStatus = false ∧ isDroppable env.buffer = true ∧
      r = stopAndPause env { data with streamStarted := true }
        (if data.streamStarted then [] else [Event.start])) ∨
    (STATUS_FAILED data.streamStatus = false ∧ isDroppable env.buffer = false ∧
      env.buffer.mappable = false ∧
      r = (GstFlowReturn.GST_FLOW_OK, (frameTimes X env { data with streamStarted := true }).1,
        (if data.streamStarted then [] else [Event.start]))) ∨
    (STATUS_FAILED data.streamStatus = false ∧ isDroppable env.buffer = false ∧
      env.buffer.mappable = true ∧
      ∃ frame, r = afterFrameBuilt X env { data with streamStarted := true }
        (if data.streamStarted then [] else [Event.start]) frame) := by
  cases hf : STATUS_FAILED data.streamStatus with
  | true =>
    rw [on_new_sample_failed X env data hf] at h
    exact Or.inl ⟨rfl, (Except.ok.inj h).symm⟩
  | false =>
    cases hd : isDroppable env.buffer with
    | true =>
      rw [on_new_sample_dropped X env data hf hd] at h
      exact Or.inr (Or.inl ⟨rfl, rfl, (Except.ok.inj h).symm⟩)
    | false =>
      cases hm : env.buffer.mappable with
      | false =>
        rw [on_new_sample_unmapped X env data hf hd hm] at h
        exact Or.inr (Or.inr (Or.inl ⟨rfl, rfl, rfl, (Except.ok.inj h).symm⟩))
      | true =>
        cases hc : create_kinesis_video_frame X env.frame env.uninit
          (toInt64 (frameTimes X env { data with streamStarted := true }).2.1)
          (toInt64 (frameTimes X env { data with streamStarted := true }).2.2)
          (kinesisVideoFlags env.buffer) env.buffer.payload env.buffer.payload.length with
        | error u =>
          rw [on_new_sample_overflow X env data u hf hd hm hc] at h
          cases h
        | ok frame =>
          rw [on_new_sample_sent X env data frame hf hd hm hc] at h
          exact Or.inr (Or.inr (Or.inr ⟨rfl, rfl, rfl, frame, (Except.ok.inj h).symm⟩))

/-- The calls made before line 442 are at most the start of the stream. -/
theorem startEvents_only (data : CustomData) :
    ∀ e ∈ (if data.streamStarted then [] else [Event.start] : List Event), e = Event.start := by
  intro e he
  split_ifs at he
  · simp at he
  · simpa using he

/-- The array for the frame can be allocated and filled when the payload and
the 20 bytes of metadata fit a `UINT32` size. -/
theorem create_kinesis_video_frame_fits (X : Externals) (frame : Frame) (uninit : Nat → Nat)
    (pts dts : Int) (flags : FRAME_FLAGS) (data : List Nat)
    (hlen : data.length + 20 < 2 ^ 32) :
    ∃ f, create_kinesis_video_frame X frame uninit pts dts flags data data.length =
      Except.ok f := by
  unfold create_kinesis_video_frame
  have h1 : data.length % 2 ^ 32 = data.length := Nat.mod_eq_of_lt (by omega)
  have h2 : (data.length + CANARY_METADATA_SIZE) % 2 ^ 32 = data.length + CANARY_METADATA_SIZE :=
    Nat.mod_eq_of_lt (by unfold CANARY_METADATA_SIZE; omega)
  simp only [h1, h2]
  rw [if_neg (by omega)]
  exact ⟨_, rfl⟩

/-- A call of `on_new_sample` completes when the payload and the metadata fit
a `UINT32` size. -/
theorem on_new_sample_completes (X : Externals) (env : SampleEnv) (data : CustomData)
    (hlen : env.buffer.payload.length + 20 < 2 ^ 32) :
    ∃ r, on_new_sample X env data = Except.ok r := by
  cases hf : STATUS_FAILED data.streamStatus with
  | true => exact ⟨_, on_new_sample_failed X env data hf⟩
  | false =>
    cases hd : isDroppable env.buffer with
    | true => exact ⟨_, on_new_sample_dropped X env data hf hd⟩
    | false =>
      cases hm : env.buffer.mappable with
      | false => exact ⟨_, on_new_sample_unmapped X env data hf hd hm⟩
      | true =>
        obtain ⟨frame, hc⟩ := create_kinesis_video_frame_fits X env.frame env.uninit
          (toInt64 (frameTimes X env { data with streamStarted := true }).2.1)
          (toInt64 (frameTimes X env { data with streamStarted := true }).2.2)
          (kinesisVideoFlags env.buffer) env.buffer.payload hlen
        exact ⟨_, on_new_sample_sent X env data frame hf hd hm hc⟩

/-- A key that is not in the map is not found. -/
theorem mapFind_eq_none (m : KeyFrameMap) (key : Nat) (h : ∀ e ∈ m, e.1 ≠ key) :
    mapFind m key = none := by
  induction m with
  | nil => rfl
  | cons e0 rest ih =>
    obtain ⟨k, v⟩ := e0
    unfold mapFind
    rw [if_neg (h (k, v) (List.mem_cons_self _ _))]
    exact ih (fun e he => h e (List.mem_cons_of_mem _ he))

/-- Every key of the map after a run of calls was a key before the run, or is
the millisecond value of the key-frame timestamp stored before the run or of
one given during the run. -/
theorem key_of_mem_observeKeyFrames (calls : List ((Nat → Int) × Nat)) (s : Nat × KeyFrameMap)
    (e : Nat × Nat) (he : e ∈ (observeKeyFrames calls s).2) :
    e ∈ s.2 ∨ e.1 = s.1 / HUNDREDS_OF_NANOS_IN_A_MILLISECOND ∨
      ∃ c ∈ calls, e.1 = c.2 / HUNDREDS_OF_NANOS_IN_A_MILLISECOND := by
  induction calls generalizing s with
  | nil => exact Or.inl (by simpa [observeKeyFrames] using he)
  | cons c rest ih =>
    have hstep : observeKeyFrames (c :: rest) s =
        observeKeyFrames rest (updateFragmentEndTimes c.1 c.2 s.1 s.2) := by
      simp [observeKeyFrames]
    rw [hstep] at he
    rcases ih _ he with h | h | ⟨d, hd, h⟩
    · rcases key_of_mem_updateFragmentEndTimes c.1 c.2 s.1 s.2 e h with h2 | h2
      · exact Or.inr (Or.inl h2)
      · exact Or.inl h2
    · rw [updateFragmentEndTimes_fst] at h
      exact Or.inr (Or.inr ⟨c, List.mem_cons_self _ _, h⟩)
    · exact Or.inr (Or.inr ⟨d, List.mem_cons_of_mem _ hd, h⟩)

/-- A call of `on_new_sample` that sleeps has emptied the map. -/
theorem on_new_sample_sleep (X : Externals) (env : SampleEnv) (data : CustomData)
    (r : GstFlowReturn × CustomData × List Event)
    (hr : on_new_sample X env data = Except.ok r) (hpause : ∃ n, Event.sleep n ∈ r.2.2) :
    r.2.1.timeOfNextKeyFrame = [] := by
  have key : ∀ (d : CustomData) (ev : List Event), (∀ n, Event.sleep n ∉ ev) →
      (∃ n, Event.sleep n ∈ (stopAndPause env d ev).2.2) →
      (stopAndPause env d ev).2.1.timeOfNextKeyFrame = [] := by
    intro d ev hev ⟨n, hn⟩
    obtain ⟨added, hadd, -, -, hsleep⟩ := stopAndPause_events env d ev
    rw [hadd, List.mem_append] at hn
    rcases hn with hn | hn
    · exact absurd hn (hev n)
    · rw [stopAndPause_data_pause env d ev (hsleep.1 ⟨n, hn⟩)]
  have hstart : ∀ n, Event.sleep n ∉
      (if data.streamStarted then [] else [Event.start] : List Event) := by
    intro n hn
    have := startEvents_only data _ hn
    cases this
  rcases on_new_sample_cases X env data r hr with ⟨-, rfl⟩ | ⟨-, -, rfl⟩ | ⟨-, -, -, rfl⟩ |
    ⟨-, -, -, frame, rfl⟩
  · obtain ⟨n, hn⟩ := hpause
    simp at hn
  · exact key _ _ hstart hpause
  · obtain ⟨n, hn⟩ := hpause
    exact absurd hn (hstart n)
  · obtain ⟨d, ev, heq, -, hsl, -, -, -⟩ := afterFrameBuilt_spec X env
      { data with streamStarted := true } _ frame (startEvents_only data)
    rw [heq] at hpause ⊢
    exact key d ev hsl hpause

/-! ## The claims on the invariant of the map and on the pause -/

/-- Claim C11, as stated, fails: `updateFragmentEndTimes` stores whatever
key-frame timestamp it is given.  Called with 10000 after 20000 it inserts
the entry 2 -> 1, whose value is below its key. -/
theorem c11_counterexample :
    (∀ e ∈ ([] : KeyFrameMap), e.1 ≤ e.2) ∧
    ¬ (∀ e ∈ (updateFragmentEndTimes (fun _ => 300000) 10000 20000 []).2, e.1 ≤ e.2) := by
  decide

/-- Claim C11, amended: "every entry has value >= key" holds for the empty map;
it is kept by `updateFragmentEndTimes` when the millisecond value of the
key-frame timestamp given is not below that of the stored one (or the stored
one is 0); it is kept by every call of the acknowledgment handler that
completes; and it is kept by the stop-time check and the pause, which leave
the map as it is or empty it. -/
theorem c11_values_not_below_keys (clock : Nat → Int) (cur last : Nat) (m : KeyFrameMap)
    (now : Int) (ack : FragmentAck) (data : CustomData) (env : SampleEnv) (events : List Event)
    (hm : ∀ e ∈ m, e.1 ≤ e.2) (hdata : ∀ e ∈ data.timeOfNextKeyFrame, e.1 ≤ e.2) :
    (∀ e ∈ ([] : KeyFrameMap), e.1 ≤ e.2) ∧
    ((last ≠ 0 → last / HUNDREDS_OF_NANOS_IN_A_MILLISECOND ≤
        cur / HUNDREDS_OF_NANOS_IN_A_MILLISECOND) →
      ∀ e ∈ (updateFragmentEndTimes clock cur last m).2, e.1 ≤ e.2) ∧
    (∀ r, fragmentAckReceivedHandler now data ack = Except.ok r →
      ∀ e ∈ r.data.timeOfNextKeyFrame, e.1 ≤ e.2) ∧
    (∀ e ∈ (stopAndPause env data events).2.1.timeOfNextKeyFrame, e.1 ≤ e.2) := by
  refine ⟨by simp, ?_, ?_, ?_⟩
  · intro hle e he
    unfold updateFragmentEndTimes at he
    split_ifs at he with h0
    · have h1 := mem_of_mem_evictLoop clock _ 0 e he
      rcases mem_of_mem_mapAssign m _ _ e h1 with h2 | h2
      · rw [h2]
        exact hle h0
      · exact hm e h2
    · exact hm e he
  · intro r hr
    rw [(fragmentAckReceivedHandler_data now data ack r hr).1]
    exact hdata
  · intro e he
    rcases (stopAndPause_keeps env data events).2.2.2.2.2 with h | h
    · rw [h] at he
      exact hdata e he
    · rw [h] at he
      simp at he

/-- Claim C11, amended, at concrete values: key frames 10000 then 20000 on a
map with the entry 1 -> 1, a persisted acknowledgment for 1, and a pause. -/
theorem c11_witness :
    (∀ e ∈ ([] : KeyFrameMap), e.1 ≤ e.2) ∧
    (((10000 : Nat) ≠ 0 → 10000 / HUNDREDS_OF_NANOS_IN_A_MILLISECOND ≤
        20000 / HUNDREDS_OF_NANOS_IN_A_MILLISECOND) →
      ∀ e ∈ (updateFragmentEndTimes (fun _ => 300000) 20000 10000 [(1, 1)]).2, e.1 ≤ e.2) ∧
    (∀ r, fragmentAckReceivedHandler 5250 { timeOfNextKeyFrame := [(1, 1)] }
        { ackType := FRAGMENT_ACK_TYPE.PERSISTED, timestamp := 1 } = Except.ok r →
      ∀ e ∈ r.data.timeOfNextKeyFrame, e.1 ≤ e.2) ∧
    (∀ e ∈ (stopAndPause {} { timeOfNextKeyFrame := [(1, 1)] } []).2.1.timeOfNextKeyFrame,
      e.1 ≤ e.2) :=
  c11_values_not_below_keys (fun _ => 300000) 20000 10000 [(1, 1)] 5250
    { ackType := FRAGMENT_ACK_TYPE.PERSISTED, timestamp := 1 } { timeOfNextKeyFrame := [(1, 1)] }
    {} [] (by decide) (by decide)

/-- Claim C12, as stated, fails: the pause empties the map but leaves
`lastKeyFrameTime` as it is.  Key frames 10000 and 20000 are observed, a call
of `on_new_sample` in the intermittent scenario enters the pause (it sleeps
and the map is empty), and the next key frame, 30000, stores the entry 2 -> 3:
an acknowledgment for the key frame 20000, observed before the pause, finds
it. -/
theorem c12_counterexample :
    ∃ r, on_new_sample exampleExternals
        { buffer := { flags := GST_BUFFER_FLAG_CORRUPTED }, nowMinutesPause := 5 }
        { canaryRunScenario := "Intermittent", runTill := 4,
          lastKeyFrameTime :=
            (observeKeyFrames [(fun _ => 300000, 10000), (fun _ => 300000, 20000)] (0, [])).1,
          timeOfNextKeyFrame :=
            (observeKeyFrames [(fun _ => 300000, 10000), (fun _ => 300000, 20000)] (0, [])).2 } =
        Except.ok r ∧
      (observeKeyFrames [(fun _ => 300000, 10000), (fun _ => 300000, 20000)] (0, [])).2 =
        [(1, 2)] ∧
      Event.sleep 60 ∈ r.2.2 ∧ r.2.1.timeOfNextKeyFrame = [] ∧
      mapFind (updateFragmentEndTimes (fun _ => 300000) 30000 r.2.1.lastKeyFrameTime
        r.2.1.timeOfNextKeyFrame).2 (20000 / HUNDREDS_OF_NANOS_IN_A_MILLISECOND) =
        some (30000 / HUNDREDS_OF_NANOS_IN_A_MILLISECOND) :=
  ⟨_, rfl, by decide, by decide, by decide, by decide⟩

/-- Claim C12, amended: a call of `on_new_sample` that enters the pause (it
completes and sleeps) leaves the map empty, so that until the next key frame
every acknowledgment finds no entry; and after any run of later
`updateFragmentEndTimes` calls, an acknowledgment for the millisecond
timestamp `ts` finds no entry provided `ts` is not the millisecond value of
`lastKeyFrameTime`, which the pause does not reset, nor of a key-frame
timestamp given after the pause. -/
theorem c12_pause_clears (X : Externals) (env : SampleEnv) (data : CustomData)
    (r : GstFlowReturn × CustomData × List Event)
    (hr : on_new_sample X env data = Except.ok r) (hpause : ∃ n, Event.sleep n ∈ r.2.2) :
    r.2.1.timeOfNextKeyFrame = [] ∧
    (∀ ts, mapFind r.2.1.timeOfNextKeyFrame ts = none) ∧
    ∀ (calls : List ((Nat → Int) × Nat)) (ts : Nat),
      ts ≠ r.2.1.lastKeyFrameTime / HUNDREDS_OF_NANOS_IN_A_MILLISECOND →
      (∀ c ∈ calls, ts ≠ c.2 / HUNDREDS_OF_NANOS_IN_A_MILLISECOND) →
      mapFind (observeKeyFrames calls (r.2.1.lastKeyFrameTime, r.2.1.timeOfNextKeyFrame)).2 ts =
        none := by
  have hempty := on_new_sample_sleep X env data r hr hpause
  refine ⟨hempty, ?_, ?_⟩
  · intro ts
    rw [hempty]
    rfl
  · intro calls ts hlast hcalls
    apply mapFind_eq_none
    intro e he hk
    rcases key_of_mem_observeKeyFrames calls _ e he with h | h | ⟨c, hc, h⟩
    · rw [hempty] at h
      simp at h
    · exact hlast (hk.symm.trans h)
    · exact hcalls c hc (hk.symm.trans h)

/-- Claim C12, amended, at the run of the counterexample: after the pause an
acknowledgment for the key frame 10000 (millisecond value 1) finds no entry,
also after the key frame 30000 has been observed. -/
theorem c12_witness :
    (stopAndPause { buffer := { flags := GST_BUFFER_FLAG_CORRUPTED }, nowMinutesPause := 5 }
      { canaryRunScenario := "Intermittent", runTill := 4, lastKeyFrameTime := 20000,
        timeOfNextKeyFrame := [(1, 2)], streamStarted := true }
      [Event.start]).2.1.timeOfNextKeyFrame = [] ∧
    mapFind (observeKeyFrames [(fun _ => 300000, 30000)]
      ((stopAndPause { buffer := { flags := GST_BUFFER_FLAG_CORRUPTED }, nowMinutesPause := 5 }
          { canaryRunScenario := "Intermittent", runTill := 4, lastKeyFrameTime := 20000,
            timeOfNextKeyFrame := [(1, 2)], streamStarted := true }
          [Event.start]).2.1.lastKeyFrameTime,
        (stopAndPause { buffer := { flags := GST_BUFFER_FLAG_CORRUPTED }, nowMinutesPause := 5 }
          { canaryRunScenario := "Intermittent", runTill := 4, lastKeyFrameTime := 20000,
            timeOfNextKeyFrame := [(1, 2)], streamStarted := true }
          [Event.start]).2.1.timeOfNextKeyFrame)).2 1 = none :=
  ⟨(c12_pause_clears exampleExternals
      { buffer := { flags := GST_BUFFER_FLAG_CORRUPTED }, nowMinutesPause := 5 }
      { canaryRunScenario := "Intermittent", runTill := 4, lastKeyFrameTime := 20000,
        timeOfNextKeyFrame := [(1, 2)] } _ rfl ⟨60, by decide⟩).1,
    (c12_pause_clears exampleExternals
      { buffer := { flags := GST_BUFFER_FLAG_CORRUPTED }, nowMinutesPause := 5 }
      { canaryRunScenario := "Intermittent", runTill := 4, lastKeyFrameTime := 20000,
        timeOfNextKeyFrame := [(1, 2)] } _ rfl ⟨60, by decide⟩).2.2
      [(fun _ => 300000, 30000)] 1 (by decide) (by decide)⟩

/-! ## The claims on the startup metric, the stream error and the stop time -/

/-- The calls that the stop-time check and the pause add are neither `putFrame`
nor a request with a "StartupLatency" sample. -/
theorem stopAndPause_observed (env : SampleEnv) (data : CustomData) (events : List Event) :
    (stopAndPause env data events).2.2.any isPutFrame = events.any isPutFrame ∧
    startupRequests (stopAndPause env data events).2.2 = startupRequests events ∧
    (Event.mainLoopQuit ∉ events →
      (Event.mainLoopQuit ∈ (stopAndPause env data events).2.2 ↔
        toUInt64 (toInt32 env.nowSecondsStop) >
          data.producerStartTime / 1000000000 + data.canaryDuration)) := by
  obtain ⟨added, hadd, honly, hquit, -⟩ := stopAndPause_events env data events
  have hnone : ∀ e ∈ added, isPutFrame e = false ∧ isStartupRequest e = false := by
    intro e he
    rcases honly e he with rfl | ⟨n, rfl⟩ <;> exact ⟨rfl, rfl⟩
  rw [hadd]
  refine ⟨?_, ?_, ?_⟩
  · rw [List.any_append]
    have : added.any isPutFrame = false := by
      rw [List.any_eq_false]
      intro e he
      simp [(hnone e he).1]
    rw [this, Bool.or_false]
  · rw [startupRequests_append, startupRequests_of_none added (fun e he => (hnone e he).2)]
    rfl
  · intro hno
    rw [List.mem_append, ← hquit]
    exact ⟨fun h => h.resolve_left hno, Or.inr⟩

theorem startEvents_observed (data : CustomData) :
    (if data.streamStarted then [] else [Event.start] : List Event).any isPutFrame = false ∧
    startupRequests (if data.streamStarted then [] else [Event.start]) = 0 ∧
    Event.mainLoopQuit ∉ (if data.streamStarted then [] else [Event.start] : List Event) := by
  split_ifs <;> exact ⟨rfl, rfl, by simp⟩

/-- The conversion of the seconds to `int` and then to `uint64_t` keeps a
value that an `int` can hold and that is not negative. -/
theorem toUInt64_toInt32 (x : Int) (h0 : 0 ≤ x) (h1 : x < 2 ^ 31) :
    toUInt64 (toInt32 x) = x.toNat := by
  have h : toInt32 x = x := by
    unfold toInt32
    rw [Int.emod_eq_of_lt (by omega) (by omega)]
    omega
  rw [h]
  exact toUInt64_of_nonneg x h0 (by omega)

/-- Claim C15, as stated, fails in three ways.  (a) A frame that is not dropped
and whose buffer cannot be mapped leaves `on_new_sample` at line 475, before
the stop-time check: no stop is requested although 1000 s have passed and the
run duration is 10 s.  (b) The seconds are held in an `int`: at second 2^31
the value wraps to a negative number, which is compared as a `uint64_t`, and
the stop is requested although no time has passed since the start.  (c) The
same holds for a clock that reads a negative number of seconds. -/
theorem c15_counterexample :
    (∃ r, on_new_sample exampleExternals
        { buffer := { mappable := false }, nowSecondsStop := 1000 }
        { canaryDuration := 10, useAbsoluteFragmentTimes := false } = Except.ok r ∧
      STATUS_FAILED ({ canaryDuration := 10, useAbsoluteFragmentTimes := false } :
        CustomData).streamStatus = false ∧
      Event.mainLoopQuit ∉ r.2.2 ∧
      (1000 : Int) - ((r.2.1.producerStartTime / 1000000000 : Nat) : Int) >
        (r.2.1.canaryDuration : Int)) ∧
    (∃ r, on_new_sample exampleExternals
        { buffer := { flags := GST_BUFFER_FLAG_CORRUPTED }, nowSecondsStop := 2147483648 }
        { canaryDuration := 100, producerStartTime := 2147483648000000000 } = Except.ok r ∧
      Event.mainLoopQuit ∈ r.2.2 ∧
      ¬ ((2147483648 : Int) - ((r.2.1.producerStartTime / 1000000000 : Nat) : Int) >
        (r.2.1.canaryDuration : Int))) ∧
    (∃ r, on_new_sample exampleExternals
        { buffer := { flags := GST_BUFFER_FLAG_CORRUPTED }, nowSecondsStop := -1 }
        { canaryDuration := 100 } = Except.ok r ∧
      Event.mainLoopQuit ∈ r.2.2 ∧
      ¬ ((-1 : Int) - ((r.2.1.producerStartTime / 1000000000 : Nat) : Int) >
        (r.2.1.canaryDuration : Int))) :=
  ⟨⟨_, rfl, by decide, by decide, by decide⟩, ⟨_, rfl, by decide, by decide⟩,
    ⟨_, rfl, by decide, by decide⟩⟩

/-- Claim C15, amended: a call of `on_new_sample` that finds no failed stream
status and whose frame is dropped or has a buffer that can be mapped completes
(when the payload and the metadata fit a `UINT32` size), and, when the clock
reads a number of seconds that is not negative and that an `int` can hold, it
requests the stop of the main loop exactly when the seconds passed since
`producerStartTime` exceed `canaryDuration`, whatever the run scenario. -/
theorem c15_stop_time (X : Externals) (env : SampleEnv) (data : CustomData)
    (hf : STATUS_FAILED data.streamStatus = false)
    (hreach : isDroppable env.buffer = true ∨ env.buffer.mappable = true)
    (h0 : 0 ≤ env.nowSecondsStop) (h1 : env.nowSecondsStop < 2 ^ 31) :
    (env.buffer.payload.length + 20 < 2 ^ 32 → ∃ r, on_new_sample X env data = Except.ok r) ∧
    ∀ r, on_new_sample X env data = Except.ok r →
      (Event.mainLoopQuit ∈ r.2.2 ↔
        env.nowSecondsStop - ((r.2.1.producerStartTime / 1000000000 : Nat) : Int) >
          (r.2.1.canaryDuration : Int)) := by
  refine ⟨on_new_sample_completes X env data, ?_⟩
  intro r hr
  have key : ∀ (d : CustomData) (ev : List Event), Event.mainLoopQuit ∉ ev →
      (Event.mainLoopQuit ∈ (stopAndPause env d ev).2.2 ↔
        env.nowSecondsStop -
            (((stopAndPause env d ev).2.1.producerStartTime / 1000000000 : Nat) : Int) >
          ((stopAndPause env d ev).2.1.canaryDuration : Int)) := by
    intro d ev hev
    rw [(stopAndPause_observed env d ev).2.2 hev, toUInt64_toInt32 _ h0 h1,
      (stopAndPause_keeps env d ev).2.2.1, (stopAndPause_keeps env d ev).2.2.2.1]
    omega
  rcases on_new_sample_cases X env data r hr with ⟨hf2, -⟩ | ⟨-, -, rfl⟩ | ⟨-, hd, hm, -⟩ |
    ⟨-, -, -, frame, rfl⟩
  · rw [hf] at hf2
    cases hf2
  · exact key _ _ (startEvents_observed data).2.2
  · rcases hreach with h | h
    · rw [hd] at h
      cases h
    · rw [hm] at h
      cases h
  · obtain ⟨d, ev, heq, -, -, hq, -, -⟩ := afterFrameBuilt_spec X env
      { data with streamStarted := true } _ frame (startEvents_only data)
    rw [heq]
    exact key d ev hq

/-- Claim C15, amended, at a concrete call: a dropped frame at second 1000 of a
run that started at second 900 and lasts 60 s. -/
theorem c15_witness :
    Event.mainLoopQuit ∈
        (stopAndPause
          { buffer := { flags := GST_BUFFER_FLAG_CORRUPTED }, nowSecondsStop := 1000 }
          { canaryDuration := 60, producerStartTime := 900000000000, streamStarted := true }
          [Event.start]).2.2 ↔
      (1000 : Int) -
          (((stopAndPause
            { buffer := { flags := GST_BUFFER_FLAG_CORRUPTED }, nowSecondsStop := 1000 }
            { canaryDuration := 60, producerStartTime := 900000000000, streamStarted := true }
            [Event.start]).2.1.producerStartTime / 1000000000 : Nat) : Int) >
        ((stopAndPause
          { buffer := { flags := GST_BUFFER_FLAG_CORRUPTED }, nowSecondsStop := 1000 }
          { canaryDuration := 60, producerStartTime := 900000000000, streamStarted := true }
          [Event.start]).2.1.canaryDuration : Int) :=
  (c15_stop_time exampleExternals
    { buffer := { flags := GST_BUFFER_FLAG_CORRUPTED }, nowSecondsStop := 1000 }
    { canaryDuration := 60, producerStartTime := 900000000000 }
    (by decide) (Or.inl (by decide)) (by decide) (by decide)).2 _ rfl

/-- A list with a `putFrame` call holds a frame. -/
theorem exists_putFrame_of_any (events : List Event) (h : events.any isPutFrame = true) :
    ∃ f, Event.putFrame f ∈ events := by
  rw [List.any_eq_true] at h
  obtain ⟨e, he, hp⟩ := h
  cases e <;> simp [isPutFrame] at hp
  exact ⟨_, he⟩

theorem delivered_sample (env : SampleEnv) (events : List Event) :
    delivered (PumpInput.sample env, events) = (events.any isPutFrame && env.putFrameResult) :=
  rfl

/-- One call of `on_new_sample`: it sends one request with a "StartupLatency"
sample when `onFirstFrame` is set and the call delivers a frame, and none
otherwise; and `onFirstFrame` is cleared exactly by a call that delivers. -/
theorem on_new_sample_startup (X : Externals) (env : SampleEnv) (data : CustomData)
    (r : GstFlowReturn × CustomData × List Event)
    (hr : on_new_sample X env data = Except.ok r) :
    startupRequests r.2.2 =
        (if data.onFirstFrame = true ∧ delivered (PumpInput.sample env, r.2.2) = true
          then 1 else 0) ∧
      r.2.1.onFirstFrame = (data.onFirstFrame && !delivered (PumpInput.sample env, r.2.2)) := by
  simp only [delivered_sample]
  rcases on_new_sample_cases X env data r hr with ⟨-, rfl⟩ | ⟨-, -, rfl⟩ | ⟨-, -, -, rfl⟩ |
    ⟨-, -, -, frame, rfl⟩
  · simp [startupRequests]
  · have h1 := (stopAndPause_observed env { data with streamStarted := true }
      (if data.streamStarted then [] else [Event.start])).1
    have h2 := (stopAndPause_observed env { data with streamStarted := true }
      (if data.streamStarted then [] else [Event.start])).2.1
    have h3 := (stopAndPause_keeps env { data with streamStarted := true }
      (if data.streamStarted then [] else [Event.start])).2.1
    rw [(startEvents_observed data).1] at h1
    rw [(startEvents_observed data).2.1] at h2
    simp only [h1, h2, h3]
    simp
  · simp only [(startEvents_observed data).1, (startEvents_observed data).2.1,
      (frameTimes_keeps X env _).2.2.1]
    simp
  · obtain ⟨d, ev, heq, hfirst, -, -, hput, hcount⟩ := afterFrameBuilt_spec X env
      { data with streamStarted := true } _ frame (startEvents_only data)
    have h1 := (stopAndPause_observed env d ev).1
    have h2 := (stopAndPause_observed env d ev).2.1
    have h3 := (stopAndPause_keeps env d ev).2.1
    rw [hput] at h1
    rw [hcount] at h2
    rw [hfirst] at h3
    simp only [heq, h1, h2, h3]
    simp

/-- One call of `streamErrorReportHandler`: it sends no request, calls no
`putFrame` and keeps `onFirstFrame`. -/
theorem streamErrorReportHandler_startup (X : Externals) (data : CustomData)
    (status_code : Nat) :
    startupRequests (streamErrorReportHandler X data status_code).2.2 = 0 ∧
      (streamErrorReportHandler X data status_code).2.1.onFirstFrame = data.onFirstFrame := by
  unfold streamErrorReportHandler
  simp only
  constructor
  · split_ifs <;> rfl
  · split_ifs <;> rfl

/-- Along a run, a call sends a request with a "StartupLatency" sample exactly
when `onFirstFrame` was set at the start of the run and the call is the first
one to deliver a frame; and `onFirstFrame` is set after the run exactly when it
was set before and no call delivered. -/
theorem runPump_startup (X : Externals) (inputs : List PumpInput) (data d : CustomData)
    (log : List (PumpInput × List Event))
    (hrun : runPump X inputs data = Except.ok (d, log)) :
    (∀ pre call post, log = pre ++ call :: post →
      startupRequests call.2 =
        (if data.onFirstFrame = true ∧ delivered call = true ∧ ∀ q ∈ pre, delivered q = false
          then 1 else 0)) ∧
    d.onFirstFrame = (data.onFirstFrame && log.all (fun q => !delivered q)) ∧
    log.length = inputs.length := by
  induction inputs generalizing data d log with
  | nil =>
    simp only [runPump, Except.ok.injEq, Prod.mk.injEq] at hrun
    obtain ⟨rfl, rfl⟩ := hrun
    refine ⟨?_, by simp, rfl⟩
    intro pre call post h
    simp at h
  | cons inp rest ih =>
    -- the first call `c1`, the data `d1` after it, and the rest of the run
    have hsplit : ∃ (c1 : PumpInput × List Event) (d1 : CustomData)
        (log1 : List (PumpInput × List Event)),
        runPump X rest d1 = Except.ok (d, log1) ∧ log = c1 :: log1 ∧
        startupRequests c1.2 =
          (if data.onFirstFrame = true ∧ delivered c1 = true then 1 else 0) ∧
        d1.onFirstFrame = (data.onFirstFrame && !delivered c1) := by
      cases inp with
      | sample env =>
        simp only [runPump] at hrun
        cases hs : on_new_sample X env data with
        | error u =>
          rw [hs] at hrun
          cases hrun
        | ok r =>
          rw [hs] at hrun
          cases hq : runPump X rest r.2.1 with
          | error u =>
            simp only [hq] at hrun
            cases hrun
          | ok q =>
            simp only [hq, Except.ok.injEq, Prod.mk.injEq] at hrun
            obtain ⟨rfl, rfl⟩ := hrun
            exact ⟨_, _, _, hq, rfl, (on_new_sample_startup X env data r hs).1,
              (on_new_sample_startup X env data r hs).2⟩
      | streamError code =>
        simp only [runPump] at hrun
        cases hq : runPump X rest (streamErrorReportHandler X data code).2.1 with
        | error u =>
          simp only [hq] at hrun
          cases hrun
        | ok q =>
          simp only [hq, Except.ok.injEq, Prod.mk.injEq] at hrun
          obtain ⟨rfl, rfl⟩ := hrun
          refine ⟨_, _, _, hq, rfl, ?_, ?_⟩
          · rw [(streamErrorReportHandler_startup X data code).1]
            simp [delivered]
          · rw [(streamErrorReportHandler_startup X data code).2]
            simp [delivered]
    obtain ⟨c1, d1, log1, hrest, rfl, hc1, hd1⟩ := hsplit
    obtain ⟨ih1, ih2, ih3⟩ := ih d1 d log1 hrest
    refine ⟨?_, ?_, by simp [ih3]⟩
    · intro pre call post h
      cases pre with
      | nil =>
        simp only [List.nil_append, List.cons.injEq] at h
        obtain ⟨rfl, -⟩ := h
        rw [hc1]
        simp
      | cons p pre1 =>
        simp only [List.cons_append, List.cons.injEq] at h
        obtain ⟨rfl, h⟩ := h
        rw [ih1 pre1 call post h, hd1]
        apply if_congr ?_ rfl rfl
        simp only [List.mem_cons, forall_eq_or_imp]
        cases hdel : delivered c1 <;> cases hon : data.onFirstFrame <;> simp
    · rw [ih2, hd1]
      cases hdel : delivered c1 <;> cases hon : data.onFirstFrame <;> simp [hdel]

/-- Along a run, the requests with a "StartupLatency" sample number one when
`onFirstFrame` was set at the start and some call delivered a frame, and none
otherwise. -/
theorem runPump_startup_total (X : Externals) (inputs : List PumpInput) (data d : CustomData)
    (log : List (PumpInput × List Event))
    (hrun : runPump X inputs data = Except.ok (d, log)) :
    (log.map (fun q => startupRequests q.2)).sum =
      (if (data.onFirstFrame && log.any delivered) = true then 1 else 0) := by
  induction log generalizing inputs data with
  | nil => simp
  | cons c1 log1 ih =>
    have hhead := (runPump_startup X inputs data d (c1 :: log1) hrun).1 [] c1 log1 rfl
    cases inputs with
    | nil =>
      simp only [runPump, Except.ok.injEq, Prod.mk.injEq] at hrun
      cases hrun.2
    | cons inp rest =>
      have htail : ∃ d1 : CustomData, runPump X rest d1 = Except.ok (d, log1) ∧
          d1.onFirstFrame = (data.onFirstFrame && !delivered c1) := by
        cases inp with
        | sample env =>
          simp only [runPump] at hrun
          cases hs : on_new_sample X env data with
          | error u =>
            rw [hs] at hrun
            cases hrun
          | ok r =>
            rw [hs] at hrun
            cases hq : runPump X rest r.2.1 with
            | error u =>
              simp only [hq] at hrun
              cases hrun
            | ok q =>
              simp only [hq, Except.ok.injEq, Prod.mk.injEq, List.cons.injEq] at hrun
              obtain ⟨rfl, rfl, rfl⟩ := hrun
              exact ⟨_, hq, (on_new_sample_startup X env data r hs).2⟩
        | streamError code =>
          simp only [runPump] at hrun
          cases hq : runPump X rest (streamErrorReportHandler X data code).2.1 with
          | error u =>
            simp only [hq] at hrun
            cases hrun
          | ok q =>
            simp only [hq, Except.ok.injEq, Prod.mk.injEq, List.cons.injEq] at hrun
            obtain ⟨rfl, rfl, rfl⟩ := hrun
            refine ⟨_, hq, ?_⟩
            rw [(streamErrorReportHandler_startup X data code).2]
            simp [delivered]
      obtain ⟨d1, hrest, hd1⟩ := htail
      rw [List.map_cons, List.sum_cons, ih rest d1 hrest, hhead, hd1]
      cases hdel : delivered c1 <;> cases hon : data.onFirstFrame <;>
        cases hany : log1.any delivered <;> simp [hdel, hany]

theorem all_not_delivered (log : List (PumpInput × List Event)) :
    log.all (fun q => !delivered q) = !log.any delivered := by
  induction log with
  | nil => rfl
  | cons c rest ih =>
    rw [List.all_cons, List.any_cons, ih]
    cases delivered c <;> rfl

theorem putFrameAndMetrics_streamStatus (X : Externals) (env : SampleEnv)
    (cusData : CustomData) (frame : Frame) (flags : FRAME_FLAGS) :
    (putFrameAndMetrics X env cusData frame flags).2.1.streamStatus = cusData.streamStatus := by
  unfold putFrameAndMetrics
  simp only
  split_ifs <;> rfl

theorem afterFrameBuilt_streamStatus (X : Externals) (env : SampleEnv) (data0 : CustomData)
    (events0 : List Event) (frame : Frame) :
    (afterFrameBuilt X env data0 events0 frame).2.1.streamStatus = data0.streamStatus := by
  unfold afterFrameBuilt
  simp only
  rw [(stopAndPause_keeps env _ _).2.2.2.2.1]
  have h : ∀ (ok : Bool) (d : CustomData) (ev : List Event),
      (firstFrameMetric env ok d ev).1.streamStatus = d.streamStatus := by
    intro ok d ev
    unfold firstFrameMetric
    split_ifs <;> rfl
  rw [h, putFrameAndMetrics_streamStatus, (frameTimes_keeps X env data0).2.2.2.2]

/-- One call of `on_new_sample` delivers a frame exactly when the stream status
it finds has not failed and the frame is deliverable; it keeps the stream
status. -/
theorem on_new_sample_delivered (X : Externals) (env : SampleEnv) (data : CustomData)
    (r : GstFlowReturn × CustomData × List Event)
    (hr : on_new_sample X env data = Except.ok r) :
    delivered (PumpInput.sample env, r.2.2) =
        (!STATUS_FAILED data.streamStatus && deliverable env) ∧
      r.2.1.streamStatus = data.streamStatus := by
  simp only [delivered_sample, deliverable]
  rcases on_new_sample_cases X env data r hr with ⟨hf, rfl⟩ | ⟨hf, hd, rfl⟩ | ⟨hf, hd, hm, rfl⟩ |
    ⟨hf, hd, hm, frame, rfl⟩
  · simp [hf]
  · have h1 := (stopAndPause_observed env { data with streamStarted := true }
      (if data.streamStarted then [] else [Event.start])).1
    rw [(startEvents_observed data).1] at h1
    refine ⟨?_, (stopAndPause_keeps env _ _).2.2.2.2.1⟩
    rw [h1]
    simp [hd]
  · refine ⟨?_, (frameTimes_keeps X env _).2.2.2.2⟩
    simp only [(startEvents_observed data).1]
    simp [hm]
  · obtain ⟨d, ev, heq, -, -, -, hput, -⟩ := afterFrameBuilt_spec X env
      { data with streamStarted := true } _ frame (startEvents_only data)
    have h1 := (stopAndPause_observed env d ev).1
    rw [hput] at h1
    refine ⟨?_, afterFrameBuilt_streamStatus X env _ _ frame⟩
    rw [heq, h1]
    simp [hf, hd, hm]

/-- Claim C14 fails on the code.  `streamErrorReportHandler` stores the
reported status code as `streamStatus` exactly when the code is neither
retriable nor recoverable, and leaves `CustomData` as it is otherwise; but
what it stores is a failed status only when the code is not `STATUS_SUCCESS`:
when `STATUS_SUCCESS` is reported and is neither retriable nor recoverable,
the status stored has not failed, and the next call of `on_new_sample` with a
deliverable frame calls `putFrame`. -/
theorem c14_status_recorded (X : Externals) (data : CustomData) (status_code : Nat)
    (env : SampleEnv) :
    ((X.IS_RETRIABLE_ERROR status_code = false ∧ X.IS_RECOVERABLE_ERROR status_code = false) →
      (streamErrorReportHandler X data status_code).2.1 =
          { data with streamStatus := status_code } ∧
        (STATUS_FAILED (streamErrorReportHandler X data status_code).2.1.streamStatus = true ↔
          status_code ≠ STATUS_SUCCESS)) ∧
    (¬ (X.IS_RETRIABLE_ERROR status_code = false ∧ X.IS_RECOVERABLE_ERROR status_code = false) →
      (streamErrorReportHandler X data status_code).2.1 = data) ∧
    ((X.IS_RETRIABLE_ERROR status_code = false ∧ X.IS_RECOVERABLE_ERROR status_code = false) →
      status_code = STATUS_SUCCESS → deliverable env = true →
      (env.buffer.payload.length + 20 < 2 ^ 32 →
        ∃ r, on_new_sample X env (streamErrorReportHandler X data status_code).2.1 =
          Except.ok r) ∧
      ∀ r, on_new_sample X env (streamErrorReportHandler X data status_code).2.1 =
          Except.ok r →
        r.1 = GstFlowReturn.GST_FLOW_OK ∧ ∃ f, Event.putFrame f ∈ r.2.2) := by
  have hfatal : (X.IS_RETRIABLE_ERROR status_code = false ∧
      X.IS_RECOVERABLE_ERROR status_code = false) →
      (streamErrorReportHandler X data status_code).2.1 =
        { data with streamStatus := status_code } := by
    intro h
    simp [streamErrorReportHandler, h.1, h.2]
  refine ⟨?_, ?_, ?_⟩
  · intro h
    refine ⟨hfatal h, ?_⟩
    rw [hfatal h]
    simp [STATUS_FAILED]
  · intro h
    unfold streamErrorReportHandler
    cases h1 : X.IS_RETRIABLE_ERROR status_code <;>
      cases h2 : X.IS_RECOVERABLE_ERROR status_code <;> simp_all
  · intro h hcode hdel
    refine ⟨on_new_sample_completes X env _, ?_⟩
    intro r hr
    have hst : STATUS_FAILED (streamErrorReportHandler X data status_code).2.1.streamStatus =
        false := by
      rw [hfatal h, hcode]
      rfl
    obtain ⟨k1, -⟩ := on_new_sample_delivered X env _ r hr
    rw [hst, hdel, delivered_sample] at k1
    simp only [Bool.not_false, Bool.and_self, Bool.and_eq_true] at k1
    refine ⟨?_, exists_putFrame_of_any r.2.2 k1.1⟩
    rcases on_new_sample_cases X env _ r hr with ⟨hf, -⟩ | ⟨-, -, rfl⟩ | ⟨-, -, -, rfl⟩ |
      ⟨-, -, -, frame, rfl⟩
    · rw [hst] at hf
      cases hf
    · exact (stopAndPause_flow env _ _)
    · rfl
    · unfold afterFrameBuilt
      exact (stopAndPause_flow env _ _)

/-- Claim C14 at the status code `STATUS_SUCCESS`, which the example
classifiers take as neither retriable nor recoverable, followed by a key
frame. -/
theorem c14_witness :
    (streamErrorReportHandler exampleExternals { streamStatus := 7 } STATUS_SUCCESS).2.1 =
      { streamStatus := STATUS_SUCCESS } ∧
    STATUS_FAILED
      (streamErrorReportHandler exampleExternals { streamStatus := 7 }
        STATUS_SUCCESS).2.1.streamStatus = false ∧
    ∃ r f, on_new_sample exampleExternals {}
        (streamErrorReportHandler exampleExternals { streamStatus := 7 } STATUS_SUCCESS).2.1 =
        Except.ok r ∧
      r.1 = GstFlowReturn.GST_FLOW_OK ∧ Event.putFrame f ∈ r.2.2 := by
  have h := c14_status_recorded exampleExternals { streamStatus := 7 } STATUS_SUCCESS {}
  obtain ⟨r, hr⟩ := (h.2.2 ⟨rfl, rfl⟩ rfl (by decide)).1 (by decide)
  obtain ⟨hflow, f, hf⟩ := (h.2.2 ⟨rfl, rfl⟩ rfl (by decide)).2 r hr
  exact ⟨(h.1 ⟨rfl, rfl⟩).1, by decide, r, f, hr, hflow, hf⟩

/-! ## The layout of a frame -/

theorem writeAt_tail (U T bytes : List Nat) (h : T.length = bytes.length) :
    writeAt (U ++ T) U.length bytes = U ++ bytes := by
  unfold writeAt
  rw [List.take_left, List.drop_append, ← h, List.drop_length, List.append_nil]

/-- The array of `n + 20` bytes, split after the 20 bytes of the metadata. -/
theorem uninit_split (uninit : Nat → Nat) (n : Nat) :
    (List.range (n + 20)).map uninit =
      [uninit 0, uninit 1, uninit 2, uninit 3, uninit 4, uninit 5, uninit 6, uninit 7, uninit 8,
        uninit 9, uninit 10, uninit 11, uninit 12, uninit 13, uninit 14, uninit 15, uninit 16,
        uninit 17, uninit 18, uninit 19] ++ (List.range n).map (fun i => uninit (20 + i)) := by
  rw [Nat.add_comm, List.range_add, List.map_append, List.map_map]
  rfl

/-- The frame that `create_kinesis_video_frame` builds when the payload and the
metadata fit a `UINT32` size.  The checksum is taken over the three header
fields already stored, the four bytes at offsets 16 to 19 as the allocation
left them, and the payload. -/
theorem create_kinesis_video_frame_ok (X : Externals) (frame : Frame) (uninit : Nat → Nat)
    (pts dts : Int) (flags : FRAME_FLAGS) (data : List Nat)
    (hlen : data.length + 20 < 2 ^ 32) :
    create_kinesis_video_frame X frame uninit pts dts flags data data.length =
      Except.ok { frame with
        flags := flags
        decodingTs := toUInt64 dts / DEFAULT_TIME_UNIT_IN_NANOS
        presentationTs := toUInt64 pts / DEFAULT_TIME_UNIT_IN_NANOS
        duration := 0
        size := data.length + 20
        frameData :=
          putUnalignedInt64BigEndian (toUInt64 pts / DEFAULT_TIME_UNIT_IN_NANOS /
            HUNDREDS_OF_NANOS_IN_A_MILLISECOND) ++
          putUnalignedInt32BigEndian frame.index ++
          putUnalignedInt32BigEndian (data.length + 20) ++
          putUnalignedInt32BigEndian (X.COMPUTE_CRC32
            (putUnalignedInt64BigEndian (toUInt64 pts / DEFAULT_TIME_UNIT_IN_NANOS /
              HUNDREDS_OF_NANOS_IN_A_MILLISECOND) ++
            putUnalignedInt32BigEndian frame.index ++
            putUnalignedInt32BigEndian (data.length + 20) ++
            [uninit 16, uninit 17, uninit 18, uninit 19] ++ data)) ++ data
        trackId := X.DEFAULT_TRACK_ID } := by
  have h1 : data.length % 2 ^ 32 = data.length := Nat.mod_eq_of_lt (by omega)
  have h2 : (data.length + CANARY_METADATA_SIZE) % 2 ^ 32 = data.length + 20 :=
    Nat.mod_eq_of_lt (by unfold CANARY_METADATA_SIZE; omega)
  have h3 := writeAt_tail [uninit 0, uninit 1, uninit 2, uninit 3, uninit 4, uninit 5,
    uninit 6, uninit 7, uninit 8, uninit 9, uninit 10, uninit 11, uninit 12, uninit 13,
    uninit 14, uninit 15, uninit 16, uninit 17, uninit 18, uninit 19]
    ((List.range data.length).map (fun i => uninit (20 + i))) data (by simp)
  simp only [List.length_cons, List.length_nil] at h3
  have h4 : ∀ (a b c d e f g h i j k l m n o p q r s t : Nat),
      List.take (data.length + 20) (a :: b :: c :: d :: e :: f :: g :: h :: i :: j :: k :: l ::
        m :: n :: o :: p :: q :: r :: s :: t :: data) =
      a :: b :: c :: d :: e :: f :: g :: h :: i :: j :: k :: l :: m :: n :: o :: p :: q :: r ::
        s :: t :: data := by
    intros
    simp only [List.take_succ_cons, List.take_length]
  unfold create_kinesis_video_frame
  simp only [h1, h2]
  rw [if_neg (by unfold CANARY_METADATA_SIZE; omega)]
  simp only [uninit_split, List.take_length]
  unfold CANARY_METADATA_SIZE
  rw [h3]
  simp only [writeAt, putUnalignedInt64BigEndian, putUnalignedInt32BigEndian, bigEndian]
  simp [List.range_succ, h4]

/-- A call of `create_kinesis_video_frame` that completes had a payload that
fits, with the metadata, a `UINT32` size. -/
theorem fits_of_create_kinesis_video_frame (X : Externals) (frame f : Frame)
    (uninit : Nat → Nat) (pts dts : Int) (flags : FRAME_FLAGS) (data : List Nat) (len : Nat)
    (h : create_kinesis_video_frame X frame uninit pts dts flags data len = Except.ok f) :
    len + 20 < 2 ^ 32 := by
  unfold create_kinesis_video_frame at h
  simp only at h
  split_ifs at h with hsize
  unfold CANARY_METADATA_SIZE at hsize
  omega

theorem readBigEndian_putUnalignedInt64BigEndian (v : Nat) :
    readBigEndian (putUnalignedInt64BigEndian v) = v % 2 ^ 64 := by
  simp only [readBigEndian, putUnalignedInt64BigEndian, bigEndian]
  simp [List.range_succ]
  omega

theorem length_putUnalignedInt64BigEndian (v : Nat) :
    (putUnalignedInt64BigEndian v).length = 8 := by
  simp [putUnalignedInt64BigEndian, bigEndian]

/-- The two divisions that take a non-negative count of nanoseconds to
milliseconds give the quotient by one million. -/
theorem nanos_to_millis (p : Int) (h0 : 0 ≤ p) (h1 : p < 2 ^ 63) :
    toUInt64 p / DEFAULT_TIME_UNIT_IN_NANOS / HUNDREDS_OF_NANOS_IN_A_MILLISECOND =
      p.toNat / 1000000 := by
  rw [toUInt64_of_nonneg p h0 h1, Nat.div_div_eq_div_mul]
  rfl

/-- The tracker state after lines 389-409 for a key frame. -/
theorem putFrameAndMetrics_tracker (X : Externals) (env : SampleEnv) (cusData : CustomData)
    (frame : Frame) (flags : FRAME_FLAGS) (hkey : CHECK_FRAME_FLAG_KEY_FRAME flags = true) :
    (putFrameAndMetrics X env cusData frame flags).2.1.lastKeyFrameTime =
      (updateFragmentEndTimes env.keyFrameClock frame.presentationTs
        cusData.lastKeyFrameTime cusData.timeOfNextKeyFrame).1 ∧
    (putFrameAndMetrics X env cusData frame flags).2.1.timeOfNextKeyFrame =
      (updateFragmentEndTimes env.keyFrameClock frame.presentationTs
        cusData.lastKeyFrameTime cusData.timeOfNextKeyFrame).2 := by
  unfold putFrameAndMetrics
  simp only [hkey, if_true]
  split_ifs
  · exact ⟨rfl, rfl⟩
  · exact ⟨rfl, rfl⟩

/-- Claim C20: for a key frame with a presentation time of `p` nanoseconds,
`0 <= p` (and `p` in the range of the 64-bit count), dividing by 100 and then
by 10000 gives `p / 1000000`, rounded down.  A call of `put_frame` completes
when the payload fits, and every completed call first hands `putFrame` a frame
whose presentation timestamp, divided by 10000, is that number of
milliseconds, and whose first 8 bytes are that number, most significant byte
first; `lastKeyFrameTime` becomes the frame's timestamp, from which the next
call derives its key, and when there was an earlier key frame the map becomes
the old map with that number of milliseconds assigned as the value at the key
of the earlier frame, after eviction at the front. -/
theorem c20_millisecond_conversion (X : Externals) (env : SampleEnv) (cusData : CustomData)
    (data : List Nat) (p dts : Int) (flags : FRAME_FLAGS)
    (hp0 : 0 ≤ p) (hp : p < 2 ^ 63) (hkey : CHECK_FRAME_FLAG_KEY_FRAME flags = true) :
    p.toNat / DEFAULT_TIME_UNIT_IN_NANOS / HUNDREDS_OF_NANOS_IN_A_MILLISECOND =
      p.toNat / 1000000 ∧
    (data.length + 20 < 2 ^ 32 →
      ∃ r, put_frame X env cusData data data.length p dts flags = Except.ok r) ∧
    ∀ r, put_frame X env cusData data data.length p dts flags = Except.ok r →
      ∃ frame rest, r.2.2 = Event.putFrame frame :: rest ∧
        frame.presentationTs = p.toNat / DEFAULT_TIME_UNIT_IN_NANOS ∧
        frame.presentationTs / HUNDREDS_OF_NANOS_IN_A_MILLISECOND = p.toNat / 1000000 ∧
        frame.frameData.take 8 = putUnalignedInt64BigEndian (p.toNat / 1000000) ∧
        readBigEndian (frame.frameData.take 8) = p.toNat / 1000000 ∧
        r.2.1.lastKeyFrameTime = frame.presentationTs ∧
        r.2.1.timeOfNextKeyFrame =
          (if cusData.lastKeyFrameTime ≠ 0 then
            evictLoop env.keyFrameClock 0
              (mapAssign cusData.timeOfNextKeyFrame
                (cusData.lastKeyFrameTime / HUNDREDS_OF_NANOS_IN_A_MILLISECOND)
                (p.toNat / 1000000))
          else cusData.timeOfNextKeyFrame) := by
  have hms := nanos_to_millis p hp0 hp
  have hu := toUInt64_of_nonneg p hp0 hp
  refine ⟨by rw [hu] at hms; exact hms, ?_, ?_⟩
  · intro hlen
    unfold put_frame
    rw [create_kinesis_video_frame_ok X env.frame env.uninit p dts flags data hlen]
    exact ⟨_, rfl⟩
  · intro r hr
    unfold put_frame at hr
    cases hc : create_kinesis_video_frame X env.frame env.uninit p dts flags data data.length with
    | error u =>
      rw [hc] at hr
      cases hr
    | ok f =>
      rw [hc] at hr
      have hfit := fits_of_create_kinesis_video_frame X env.frame f env.uninit p dts flags data
        data.length hc
      rw [create_kinesis_video_frame_ok X env.frame env.uninit p dts flags data hfit] at hc
      simp only [Except.ok.injEq] at hc hr
      obtain ⟨-, -, rest, hrest, -⟩ := putFrameAndMetrics_spec X env cusData f flags
      obtain ⟨t1, t2⟩ := putFrameAndMetrics_tracker X env cusData f flags hkey
      have hpts : f.presentationTs = toUInt64 p / DEFAULT_TIME_UNIT_IN_NANOS := by
        rw [← hc]
      have hhead : f.frameData.take 8 = putUnalignedInt64BigEndian
          (toUInt64 p / DEFAULT_TIME_UNIT_IN_NANOS / HUNDREDS_OF_NANOS_IN_A_MILLISECOND) := by
        rw [← hc]
        simp only [List.append_assoc]
        exact List.take_left' (length_putUnalignedInt64BigEndian _)
      subst hr
      refine ⟨f, rest, hrest, ?_, ?_, ?_, ?_, ?_, ?_⟩
      · rw [hpts, hu]
      · rw [hpts, hms]
      · rw [hhead, hms]
      · rw [hhead, hms, readBigEndian_putUnalignedInt64BigEndian]
        apply Nat.mod_eq_of_lt
        omega
      · rw [t1]
        unfold updateFragmentEndTimes
        split_ifs <;> rfl
      · rw [t2]
        unfold updateFragmentEndTimes
        rw [hpts, hms]
        split_ifs <;> rfl

/-- Claim C20 at a concrete call: a key frame at 5 s after a key frame at 4 s,
with the clock at 300000 ms. -/
theorem c20_witness :
    (0 : Int) ≤ 5000000000 ∧ (5000000000 : Int) < 2 ^ 63 ∧
    CHECK_FRAME_FLAG_KEY_FRAME FRAME_FLAGS.FRAME_FLAG_KEY_FRAME = true ∧
    ∃ r frame rest,
      put_frame exampleExternals { keyFrameClock := fun _ => 300000 }
        { lastKeyFrameTime := 40000000 } [1] 1 5000000000 0
        FRAME_FLAGS.FRAME_FLAG_KEY_FRAME = Except.ok r ∧
      r.2.2 = Event.putFrame frame :: rest ∧
      frame.presentationTs = 50000000 ∧
      readBigEndian (frame.frameData.take 8) = 5000 ∧
      r.2.1.lastKeyFrameTime = 50000000 ∧
      r.2.1.timeOfNextKeyFrame = [(4000, 5000)] := by
  have h := c20_millisecond_conversion exampleExternals { keyFrameClock := fun _ => 300000 }
    { lastKeyFrameTime := 40000000 } [1] 5000000000 0 FRAME_FLAGS.FRAME_FLAG_KEY_FRAME
    (by decide) (by decide) rfl
  obtain ⟨r, hr⟩ := h.2.1 (by decide)
  obtain ⟨frame, rest, h1, h2, -, -, h5, h6, h7⟩ := h.2.2 r hr
  exact ⟨by decide, by decide, rfl, r, frame, rest, hr, h1, h2, h5, h6.trans h2,
    h7.trans (by decide)⟩

/-! ## Claim C18 -/

/-- Every request that lines 171-219 of the acknowledgment handler hand over
keeps the contract on dimensions. -/
theorem ackLatencyRequests_contract (now : Int) (data : CustomData) (ack : FragmentAck)
    (fragmentEnd : Nat) :
    ∀ q ∈ ackLatencyRequests now data ack fragmentEnd,
      DimensionContract data.useAggMetrics q := by
  obtain ⟨t, ts⟩ := ack
  by_cases hg : ts < fragmentEnd
  · cases t <;> cases hagg : data.useAggMetrics <;>
      simp [ackLatencyRequests, hg, hagg, DimensionContract, pushMetric]
  · cases t <;> simp [ackLatencyRequests, hg]

/-- Every request that a completed call of the acknowledgment handler sent
keeps the contract on dimensions. -/
theorem fragmentAckReceivedHandler_contract (now : Int) (data : CustomData) (ack : FragmentAck)
    (r : HandlerResult) (h : fragmentAckReceivedHandler now data ack = Except.ok r) :
    ∀ q ∈ r.sent, DimensionContract data.useAggMetrics q := by
  rw [(fragmentAckReceivedHandler_data now data ack r h).2]
  intro q hq
  cases hq

/-- Every request that a call of the acknowledgment handler handed over before
it reached its closing brace keeps the contract on dimensions. -/
theorem fragmentAckReceivedHandler_contract_noReturn (now : Int) (data : CustomData)
    (ack : FragmentAck) (sent : List PutMetricDataRequest)
    (h : fragmentAckReceivedHandler now data ack = Except.error (Undefined.noReturn sent)) :
    ∀ q ∈ sent, DimensionContract data.useAggMetrics q := by
  unfold fragmentAckReceivedHandler at h
  split_ifs at h
  cases hf : mapFind data.timeOfNextKeyFrame ack.timestamp with
  | none =>
    rw [hf] at h
    cases h
  | some fragmentEnd =>
    rw [hf] at h
    simp only [Except.error.injEq, Undefined.noReturn.injEq] at h
    subst h
    exact ackLatencyRequests_contract now data ack fragmentEnd

/-- Claim C18: the requests built by `pushStreamMetrics`, `pushClientMetrics`,
`pushErrorMetrics` and `pushStartupLatencyMetric`, and every request handed
over by a call of the acknowledgment handler, whether the call returns or
reaches the closing brace of the handler, keep the contract on dimensions for
the value of `useAggMetrics`: every sample carries exactly one dimension,
per-stream or aggregated; each metric name occurs once among the per-stream
samples, and there is at least one; the aggregated samples are the per-stream
samples once more, with the same name, value and unit, if `useAggMetrics` is
set, and there are none otherwise; and the request has at most 20 samples. -/
theorem c18_dimension_contract (X : Externals) (cusData : CustomData)
    (streamMetrics rawStreamMetrics : StreamMetrics) (clientMetrics : ClientMetrics)
    (duration : Rat) (nowStartup nowAck : Int) (ack : FragmentAck) :
    DimensionContract cusData.useAggMetrics (pushStreamMetrics cusData streamMetrics) ∧
    DimensionContract cusData.useAggMetrics (pushClientMetrics cusData clientMetrics) ∧
    DimensionContract cusData.useAggMetrics
      (pushErrorMetrics X cusData rawStreamMetrics duration).2 ∧
    DimensionContract cusData.useAggMetrics (pushStartupLatencyMetric cusData nowStartup) ∧
    (∀ r, fragmentAckReceivedHandler nowAck cusData ack = Except.ok r →
      ∀ q ∈ r.sent, DimensionContract cusData.useAggMetrics q) ∧
    ∀ sent, fragmentAckReceivedHandler nowAck cusData ack =
        Except.error (Undefined.noReturn sent) →
      ∀ q ∈ sent, DimensionContract cusData.useAggMetrics q := by
  refine ⟨?_, ?_, ?_, ?_, fun r h => fragmentAckReceivedHandler_contract nowAck cusData ack r h,
    fun sent h => fragmentAckReceivedHandler_contract_noReturn nowAck cusData ack sent h⟩
  · cases h : cusData.useAggMetrics <;>
      simp [DimensionContract, pushStreamMetrics, pushMetric, h]
  · cases h : cusData.useAggMetrics <;>
      simp [DimensionContract, pushClientMetrics, pushMetric, h]
  · cases h : cusData.useAggMetrics <;>
      simp [DimensionContract, pushErrorMetrics, pushMetric, h]
  · cases h : cusData.useAggMetrics <;>
      simp [DimensionContract, pushStartupLatencyMetric, pushMetric, h]

/-- Claim C18 at concrete requests, with aggregation set: the stream pass has
six samples, and the handler hands over one request for the entry
5000 -> 5100. -/
theorem c18_witness :
    (pushStreamMetrics { useAggMetrics := true, timeOfNextKeyFrame := [(5000, 5100)] }
      {}).metricData.length = 6 ∧
    DimensionContract true
      (pushStreamMetrics { useAggMetrics := true, timeOfNextKeyFrame := [(5000, 5100)] } {}) ∧
    ∃ sent, fragmentAckReceivedHandler 5250
        { useAggMetrics := true, timeOfNextKeyFrame := [(5000, 5100)] }
        { ackType := FRAGMENT_ACK_TYPE.PERSISTED, timestamp := 5000 } =
        Except.error (Undefined.noReturn sent) ∧
      sent.length = 1 ∧ ∀ q ∈ sent, DimensionContract true q :=
  ⟨rfl,
    (c18_dimension_contract exampleExternals
      { useAggMetrics := true, timeOfNextKeyFrame := [(5000, 5100)] } {} {} {} 60 0 5250
      { ackType := FRAGMENT_ACK_TYPE.PERSISTED, timestamp := 5000 }).1,
    _, rfl, rfl,
    (c18_dimension_contract exampleExternals
      { useAggMetrics := true, timeOfNextKeyFrame := [(5000, 5100)] } {} {} {} 60 0 5250
      { ackType := FRAGMENT_ACK_TYPE.PERSISTED, timestamp := 5000 }).2.2.2.2.2 _ rfl⟩

/-! ## Claim C17 -/

/-- The `UINT64` difference of two counts is their difference when the
counter did not decrease. -/
theorem subUInt64_of_le (a b : Nat) (hle : b ≤ a) (ha : a < 2 ^ 64) :
    subUInt64 a b = a - b := by
  unfold subUInt64 toUInt64
  omega

/-- The counts that a pass stores are the raw counts it read. -/
theorem pushErrorMetrics_stored (X : Externals) (cusData : CustomData) (raw : StreamMetrics)
    (duration : Rat) :
    (pushErrorMetrics X cusData raw duration).1 =
      { cusData with
        totalPutFrameErrorCount := raw.putFrameErrors
        totalErrorAckCount := raw.errorAcks } := rfl

/-- The per-stream samples of a pass. -/
theorem pushErrorMetrics_perStream (X : Externals) (cusData : CustomData) (raw : StreamMetrics)
    (duration : Rat) :
    (pushErrorMetrics X cusData raw duration).2.metricData.filter
        (fun d => d.dimensions == [Dimension.perStream]) =
      [MetricDatum.mk "PutFrameErrorRate" [Dimension.perStream]
          (X.doubleDiv
            ((toDouble (subUInt64 raw.putFrameErrors cusData.totalPutFrameErrorCount) : Nat) : Rat)
            duration) (some StandardUnit.Count_Second),
        MetricDatum.mk "ErrorAckRate" [Dimension.perStream]
          (X.doubleDiv
            ((toDouble (subUInt64 raw.errorAcks cusData.totalErrorAckCount) : Nat) : Rat)
            duration) (some StandardUnit.Count_Second),
        MetricDatum.mk "TotalNumberOfErrors" [Dimension.perStream]
          ((toDouble ((raw.putFrameErrors + raw.errorAcks) % 2 ^ 64) : Nat) : Rat)
          (some StandardUnit.Count)] := by
  cases h : cusData.useAggMetrics <;> simp [pushErrorMetrics, pushMetric, h]

/-- Along a run of passes the differences add up to the count stored at the
end minus the count stored at the start, when the counters never decrease. -/
theorem errorPasses_sum (X : Externals) :
    ∀ (passes : List (StreamMetrics × Rat)) (cusData : CustomData),
      (∀ p ∈ passes, p.1.putFrameErrors < 2 ^ 64 ∧ p.1.errorAcks < 2 ^ 64) →
      List.Chain (fun a b : Nat × Nat => a.1 ≤ b.1 ∧ a.2 ≤ b.2)
        (cusData.totalPutFrameErrorCount, cusData.totalErrorAckCount)
        (passes.map (fun p => (p.1.putFrameErrors, p.1.errorAcks))) →
      ((errorPasses X passes cusData).2.map (fun q => q.1)).sum +
          cusData.totalPutFrameErrorCount =
        (errorPasses X passes cusData).1.totalPutFrameErrorCount ∧
      ((errorPasses X passes cusData).2.map (fun q => q.2.1)).sum +
          cusData.totalErrorAckCount =
        (errorPasses X passes cusData).1.totalErrorAckCount
  | [], cusData, _, _ => by simp [errorPasses]
  | (raw, duration) :: rest, cusData, hb, hc => by
    rw [List.map_cons, List.chain_cons] at hc
    obtain ⟨⟨h1, h2⟩, hc⟩ := hc
    obtain ⟨b1, b2⟩ := hb (raw, duration) (List.mem_cons_self _ _)
    have ih := errorPasses_sum X rest (pushErrorMetrics X cusData raw duration).1
      (fun p hp => hb p (List.mem_cons_of_mem _ hp)) hc
    simp only [pushErrorMetrics_stored] at ih
    simp only [errorPasses, List.map_cons, List.sum_cons, pushErrorMetrics_stored]
    rw [subUInt64_of_le _ _ h1 b1, subUInt64_of_le _ _ h2 b2]
    dsimp only at h1 h2 b1 b2 ih ⊢
    omega

/-- After a run of at least one pass the stored counts are the raw counts of
the last pass. -/
theorem errorPasses_stored (X : Externals) :
    ∀ (passes : List (StreamMetrics × Rat)) (cusData : CustomData) (h : passes ≠ []),
      (errorPasses X passes cusData).1.totalPutFrameErrorCount =
        (passes.getLast h).1.putFrameErrors ∧
      (errorPasses X passes cusData).1.totalErrorAckCount = (passes.getLast h).1.errorAcks
  | [], _, h => absurd rfl h
  | [(raw, duration)], cusData, _ => ⟨rfl, rfl⟩
  | (raw, duration) :: p :: rest, cusData, _ => by
    have ih := errorPasses_stored X (p :: rest) (pushErrorMetrics X cusData raw duration).1
      (List.cons_ne_nil _ _)
    rw [List.getLast_cons (List.cons_ne_nil p rest)]
    exact ih

/-- Claim C17 as stated fails, in two ways.  (a) The sum of the two counts is
taken in `UINT64`: after a pass that read no errors, a pass reads 2 ^ 63
put-frame errors and 2 ^ 63 error acknowledgments; the counters did not
decrease, the sample "TotalNumberOfErrors" has the value 0, and the sum of the
two counts is 2 ^ 64.  (b) The sum is handed to a `double` parameter: a pass
that reads 2 ^ 53 put-frame errors and 1 error acknowledgment reports 2 ^ 53,
and the sum of the two counts is 2 ^ 53 + 1. -/
theorem c17_counterexample :
    ((pushErrorMetrics exampleExternals {} {} 60).1.totalPutFrameErrorCount ≤ 2 ^ 63 ∧
      (pushErrorMetrics exampleExternals {} {} 60).1.totalErrorAckCount ≤ 2 ^ 63 ∧
      MetricDatum.mk "TotalNumberOfErrors" [Dimension.perStream] 0 (some StandardUnit.Count) ∈
        (pushErrorMetrics exampleExternals (pushErrorMetrics exampleExternals {} {} 60).1
          { putFrameErrors := 2 ^ 63, errorAcks := 2 ^ 63 } 60).2.metricData ∧
      (((2 ^ 63 : Nat) : Rat) + ((2 ^ 63 : Nat) : Rat) ≠ 0)) ∧
    ((pushErrorMetrics exampleExternals {} {} 60).1.totalPutFrameErrorCount ≤ 2 ^ 53 ∧
      (pushErrorMetrics exampleExternals {} {} 60).1.totalErrorAckCount ≤ 1 ∧
      MetricDatum.mk "TotalNumberOfErrors" [Dimension.perStream] 9007199254740992
          (some StandardUnit.Count) ∈
        (pushErrorMetrics exampleExternals (pushErrorMetrics exampleExternals {} {} 60).1
          { putFrameErrors := 2 ^ 53, errorAcks := 1 } 60).2.metricData ∧
      (((2 ^ 53 : Nat) : Rat) + ((1 : Nat) : Rat) ≠ 9007199254740992)) := by
  have ha : toDouble 0 = 0 := by decide
  have hb : toDouble 9007199254740993 = 9007199254740992 := by decide
  refine ⟨⟨by decide, by decide, ?_, by norm_num⟩, ⟨by decide, by decide, ?_, by norm_num⟩⟩
  · simp [pushErrorMetrics, pushMetric, ha]
  · simp [pushErrorMetrics, pushMetric, hb]

/-- Claim C17, amended: take a pass of `pushErrorMetrics` that follows a
previous pass, and the run of passes it starts, with raw counters that never
decrease from the previous pass on and, in every pass of the run, two raw
counts whose sum is at most 2 ^ 53.  Then the per-stream samples of the pass
are "PutFrameErrorRate" and "ErrorAckRate", each the quotient in `double` of
(current raw count - raw count at the previous pass) by the interval, and
"TotalNumberOfErrors", the sum of the two current raw counts; the pass stores
the current raw counts; and the differences computed by the passes of the run
add up to the raw count of the last pass minus the raw count of the previous
pass, for either counter. -/
theorem c17_error_rates (X : Externals) (cusData : CustomData)
    (previous : StreamMetrics) (previousDuration : Rat)
    (raw : StreamMetrics) (duration : Rat) (rest : List (StreamMetrics × Rat))
    (hbound : ∀ p ∈ (raw, duration) :: rest, p.1.putFrameErrors + p.1.errorAcks ≤ 2 ^ 53)
    (hmono : List.Chain (fun a b : Nat × Nat => a.1 ≤ b.1 ∧ a.2 ≤ b.2)
      (previous.putFrameErrors, previous.errorAcks)
      (((raw, duration) :: rest).map (fun p => (p.1.putFrameErrors, p.1.errorAcks)))) :
    (pushErrorMetrics X (pushErrorMetrics X cusData previous previousDuration).1
        raw duration).2.metricData.filter (fun d => d.dimensions == [Dimension.perStream]) =
      [MetricDatum.mk "PutFrameErrorRate" [Dimension.perStream]
          (X.doubleDiv ((raw.putFrameErrors : Rat) - (previous.putFrameErrors : Rat)) duration)
          (some StandardUnit.Count_Second),
        MetricDatum.mk "ErrorAckRate" [Dimension.perStream]
          (X.doubleDiv ((raw.errorAcks : Rat) - (previous.errorAcks : Rat)) duration)
          (some StandardUnit.Count_Second),
        MetricDatum.mk "TotalNumberOfErrors" [Dimension.perStream]
          ((raw.putFrameErrors : Rat) + (raw.errorAcks : Rat)) (some StandardUnit.Count)] ∧
    (pushErrorMetrics X (pushErrorMetrics X cusData previous previousDuration).1
        raw duration).1.totalPutFrameErrorCount = raw.putFrameErrors ∧
    (pushErrorMetrics X (pushErrorMetrics X cusData previous previousDuration).1
        raw duration).1.totalErrorAckCount = raw.errorAcks ∧
    ((((errorPasses X ((raw, duration) :: rest)
        (pushErrorMetrics X cusData previous previousDuration).1).2.map
          (fun q => q.1)).sum : Nat) : Int) =
      ((((raw, duration) :: rest).getLast (List.cons_ne_nil _ _)).1.putFrameErrors : Int) -
        (previous.putFrameErrors : Int) ∧
    ((((errorPasses X ((raw, duration) :: rest)
        (pushErrorMetrics X cusData previous previousDuration).1).2.map
          (fun q => q.2.1)).sum : Nat) : Int) =
      ((((raw, duration) :: rest).getLast (List.cons_ne_nil _ _)).1.errorAcks : Int) -
        (previous.errorAcks : Int) := by
  have hb : ∀ p ∈ (raw, duration) :: rest,
      p.1.putFrameErrors < 2 ^ 64 ∧ p.1.errorAcks < 2 ^ 64 := by
    intro p hp
    have := hbound p hp
    omega
  obtain ⟨s1, s2⟩ := errorPasses_sum X ((raw, duration) :: rest)
    (pushErrorMetrics X cusData previous previousDuration).1 hb hmono
  obtain ⟨l1, l2⟩ := errorPasses_stored X ((raw, duration) :: rest)
    (pushErrorMetrics X cusData previous previousDuration).1 (List.cons_ne_nil _ _)
  rw [List.map_cons, List.chain_cons] at hmono
  obtain ⟨⟨m1, m2⟩, -⟩ := hmono
  obtain ⟨b1, b2⟩ := hb (raw, duration) (List.mem_cons_self _ _)
  have hsum := hbound (raw, duration) (List.mem_cons_self _ _)
  dsimp only at m1 m2 b1 b2 hsum
  refine ⟨?_, rfl, rfl, ?_, ?_⟩
  · rw [pushErrorMetrics_perStream, pushErrorMetrics_stored]
    dsimp only
    rw [subUInt64_of_le _ _ m1 b1, subUInt64_of_le _ _ m2 b2,
      Nat.mod_eq_of_lt (by omega : raw.putFrameErrors + raw.errorAcks < 2 ^ 64),
      toDouble_of_le _ (by omega), toDouble_of_le _ (by omega), toDouble_of_le _ hsum,
      Nat.cast_sub m1, Nat.cast_sub m2, Nat.cast_add]
  · rw [← l1]
    rw [pushErrorMetrics_stored] at s1 ⊢
    dsimp only at s1 ⊢
    omega
  · rw [← l2]
    rw [pushErrorMetrics_stored] at s2 ⊢
    dsimp only at s2 ⊢
    omega

/-- Claim C17, amended, at a concrete run: after a pass that read 3 and 1, a
pass reads 5 and 4 over 120 s and a further pass reads 9 and 4. -/
theorem c17_witness :
    (∀ p ∈ [(({ putFrameErrors := 5, errorAcks := 4 } : StreamMetrics), (120 : Rat)),
        ({ putFrameErrors := 9, errorAcks := 4 }, 60)],
      p.1.putFrameErrors + p.1.errorAcks ≤ 2 ^ 53) ∧
    List.Chain (fun a b : Nat × Nat => a.1 ≤ b.1 ∧ a.2 ≤ b.2) (3, 1) [(5, 4), (9, 4)] ∧
    (pushErrorMetrics exampleExternals
        (pushErrorMetrics exampleExternals {} { putFrameErrors := 3, errorAcks := 1 } 60).1
        { putFrameErrors := 5, errorAcks := 4 } 120).2.metricData.filter
          (fun d => d.dimensions == [Dimension.perStream]) =
      [MetricDatum.mk "PutFrameErrorRate" [Dimension.perStream]
          (exampleExternals.doubleDiv (((5 : Nat) : Rat) - ((3 : Nat) : Rat)) 120)
          (some StandardUnit.Count_Second),
        MetricDatum.mk "ErrorAckRate" [Dimension.perStream]
          (exampleExternals.doubleDiv (((4 : Nat) : Rat) - ((1 : Nat) : Rat)) 120)
          (some StandardUnit.Count_Second),
        MetricDatum.mk "TotalNumberOfErrors" [Dimension.perStream]
          (((5 : Nat) : Rat) + ((4 : Nat) : Rat)) (some StandardUnit.Count)] ∧
    ((((errorPasses exampleExternals
        [(({ putFrameErrors := 5, errorAcks := 4 } : StreamMetrics), (120 : Rat)),
          ({ putFrameErrors := 9, errorAcks := 4 }, 60)]
        (pushErrorMetrics exampleExternals {} { putFrameErrors := 3, errorAcks := 1 } 60).1).2.map
          (fun q => q.1)).sum : Nat) : Int) = (9 : Int) - 3 ∧
    ((((errorPasses exampleExternals
        [(({ putFrameErrors := 5, errorAcks := 4 } : StreamMetrics), (120 : Rat)),
          ({ putFrameErrors := 9, errorAcks := 4 }, 60)]
        (pushErrorMetrics exampleExternals {} { putFrameErrors := 3, errorAcks := 1 } 60).1).2.map
          (fun q => q.2.1)).sum : Nat) : Int) = (4 : Int) - 1 := by
  have hb : ∀ p ∈ [(({ putFrameErrors := 5, errorAcks := 4 } : StreamMetrics), (120 : Rat)),
        ({ putFrameErrors := 9, errorAcks := 4 }, 60)],
      p.1.putFrameErrors + p.1.errorAcks ≤ 2 ^ 53 := by
    intro p hp
    simp only [List.mem_cons, List.mem_singleton, List.not_mem_nil, or_false] at hp
    rcases hp with rfl | rfl <;> decide
  have hc : List.Chain (fun a b : Nat × Nat => a.1 ≤ b.1 ∧ a.2 ≤ b.2) (3, 1)
      [(5, 4), (9, 4)] :=
    List.Chain.cons ⟨by decide, by decide⟩
      (List.Chain.cons ⟨by decide, by decide⟩ List.Chain.nil)
  have h := c17_error_rates exampleExternals {} { putFrameErrors := 3, errorAcks := 1 } 60
    { putFrameErrors := 5, errorAcks := 4 } 120 [({ putFrameErrors := 9, errorAcks := 4 }, 60)]
    hb hc
  exact ⟨hb, hc, h.1, h.2.2.2.1, h.2.2.2.2⟩

/-! ## The startup latency -/

end Canary
